import Mathlib

/-!
# SatelliteGEE: measurement session and finalize protocol

A shallow embedding of the measurement code of the split-map application:

* `src/components/SplitMapComponent.jsx`: `calculatePreviewMeasurement`,
  `handleMeasurementClick`, `completeMeasurement`, `handleDoubleClick` and the
  effects that depend on the mode, the points and the preview;
* `src/App.jsx`: `handleMeasurementUpdate`, `handlePointsUpdate`,
  `handleMeasurementModeChange`, `handleClearMeasurements`,
  `handleCompleteMeasurement`, `handleAreaMeasured`, `handleDistanceMeasured`;
* `frontend/src/services/geeService.js`: `measureArea`, `measureDistance`;
* the listener effect of `SplitMapComponent.jsx` with `handleLocationClick`:
  which `'click'` listeners are on each map, and what a click runs;
* `MapSync` of `SplitMapComponent.jsx`: `onMoveEnd`, `onOtherMapMoveEnd`;
* `drawOnMap`, `drawMeasurementPreview` and the layer groups;
* `frontend/src/services/locationHistory.js`: `getLocationHistory`,
  `addLocationToHistory`.

Conventions of the embedding.

* A finite JavaScript number is an exact rational; `NaN`, `Infinity` and
  `-Infinity` are separate values of `JsNum`. Rounding is not modelled.
* The Leaflet functions `L.GeometryUtil.geodesicArea` and `LatLng.distanceTo`,
  and the two conversions of the language runtime from a string to a number,
  are fields of `Env`: they are not code of this repository.
* React state is passed explicitly. A handler of the model is followed by the
  effects whose dependencies it changed, up to the render at which nothing
  changes any more.
* An `async` handler is split at its `await` into a `_begin` part, which runs
  inside the caller, and a `_resume` part, which runs when the HTTP exchange
  has settled.
* Where a statement is about the area formula itself, `leafletGeodesicArea`
  is that formula as Leaflet.draw documents it, over exact rationals.
-/

namespace SatelliteGEE

/-! ## JavaScript numbers and values -/

/-- JavaScript number: a finite value (an exact rational here), `NaN`, or one
of the two infinities. -/
inductive JsNum where
  | fin (q : ℚ)
  | nan
  | posInf
  | negInf
  deriving DecidableEq

namespace JsNum

/-- The test `Number.isNaN`. -/
def isNaN : JsNum → Bool
  | nan => true
  | _ => false

/-- The test `Number.isFinite`. -/
def isFinite : JsNum → Bool
  | fin _ => true
  | _ => false

/-- The sum `x + y` of two numbers. -/
def add : JsNum → JsNum → JsNum
  | fin a, fin b => fin (a + b)
  | nan, _ => nan
  | _, nan => nan
  | posInf, negInf => nan
  | negInf, posInf => nan
  | posInf, _ => posInf
  | _, posInf => posInf
  | negInf, _ => negInf
  | _, negInf => negInf

/-- The quotient `x / c` by a positive finite constant `c` (the code divides
by `1000` and by `1000000` only). -/
def divConst (x : JsNum) (c : ℚ) : JsNum :=
  match x with
  | fin a => fin (a / c)
  | y => y

/-- The comparison `x > 0`. -/
def gtZero : JsNum → Bool
  | fin a => decide (0 < a)
  | posInf => true
  | _ => false

end JsNum

/-- The value of a property read from a parsed JSON body. `undefined` is what
reading an absent property gives. -/
inductive JsValue where
  | undefined
  | null
  | bool (b : Bool)
  | num (x : JsNum)
  | str (s : String)
  deriving DecidableEq

/-- A point of the map, as Leaflet's `LatLng`. -/
structure LatLng where
  lat : ℚ
  lng : ℚ
  deriving DecidableEq

/-- What the code takes from outside the repository. -/
structure Env where
  /-- Leaflet's `L.GeometryUtil.geodesicArea`, in square metres. -/
  geodesicArea : List LatLng → JsNum
  /-- Leaflet's `a.distanceTo(b)`, in metres. -/
  distanceTo : LatLng → LatLng → JsNum
  /-- The conversion `Number(s)` of a string. -/
  stringToNumber : String → JsNum
  /-- The function `parseFloat(s)` on a string. -/
  parseFloatString : String → JsNum

/-- The conversion `Number(v)`, which the global `isNaN` applies first. -/
def toNumber (env : Env) : JsValue → JsNum
  | JsValue.undefined => JsNum.nan
  | JsValue.null => JsNum.fin 0
  | JsValue.bool true => JsNum.fin 1
  | JsValue.bool false => JsNum.fin 0
  | JsValue.num x => x
  | JsValue.str s => env.stringToNumber s

/-- The global `isNaN(v)`. -/
def jsIsNaN (env : Env) (v : JsValue) : Bool :=
  (toNumber env v).isNaN

/-- The global `parseFloat(v)`: `v` is converted to a string, and the longest
numeric start of that string is read. The strings `"undefined"`, `"null"`,
`"true"` and `"false"` have none; a number is read back from its own string. -/
def jsParseFloat (env : Env) : JsValue → JsNum
  | JsValue.num x => x
  | JsValue.str s => env.parseFloatString s
  | _ => JsNum.nan

/-! ## Data model -/

/-- The measurement mode: `'none'`, `'area'` or `'distance'`. -/
inductive Mode where
  | none
  | area
  | distance
  deriving DecidableEq

/-- A GeoJSON position `[c0, c1]`, written `[lng, lat]` by the code. -/
abbrev Position := ℚ × ℚ

/-- A geometry object that has both a type and coordinates: one of the four
kinds of the data model, with the coordinates of its kind, or an object of
another, non-empty type. -/
inductive Geometry where
  | Polygon (coordinates : List (List Position))
  | MultiPolygon (coordinates : List (List (List Position)))
  | LineString (coordinates : List Position)
  | MultiLineString (coordinates : List (List Position))
  | Other (type : String)
  deriving DecidableEq

/-- The argument of `handleAreaMeasured` and `handleDistanceMeasured`. -/
inductive GeometryArg where
  /-- The argument is `null` or `undefined`. -/
  | missing
  /-- The property `geometry.type` is absent or empty. -/
  | noType
  /-- The property `geometry.coordinates` is absent. -/
  | noCoordinates (type : String)
  | valid (g : Geometry)
  deriving DecidableEq

/-- The value `{ value, unit }` of the live preview. -/
structure Preview where
  value : JsNum
  unit : String
  deriving DecidableEq

/-- The state `measurements` of `App`. -/
structure Measurements where
  area : JsNum
  distance : JsNum
  points : Nat
  deriving DecidableEq

/-- The two keys of a measurement result. -/
inductive MeasurementKey where
  | area
  | distance
  deriving DecidableEq

/-- A call of one of the callbacks that `App` passes to `SplitMapComponent`. -/
inductive Call where
  | onAreaMeasured (g : Geometry)
  | onDistanceMeasured (g : Geometry)
  | onMeasurementUpdate (key : MeasurementKey) (value : JsNum)
  deriving DecidableEq

/-- The state of `SplitMapComponent` that the measurement session uses:
`measurementPoints`, `previewMeasurement` and `isMeasuringRef.current`. -/
structure SplitState where
  measurementPoints : List LatLng
  previewMeasurement : Preview
  isMeasuringRef : Bool
  deriving DecidableEq

/-! ## SplitMapComponent.jsx -/

/-- The loop `for (let i = 1; i < points.length; i++) totalDistance +=
points[i - 1].distanceTo(points[i])`, started at `acc`. -/
def sumDistances (env : Env) (acc : JsNum) : List LatLng → JsNum
  | p :: q :: rest => sumDistances env (acc.add (env.distanceTo p q)) (q :: rest)
  | _ => acc

/-- The unit that `calculatePreviewMeasurement` shows for a mode. -/
def previewUnit (mode : Mode) : String :=
  if mode = Mode.area then "km²" else "km"

/-- The function `calculatePreviewMeasurement(points, mode)`: the preview it
sets. -/
def calculatePreviewMeasurement (env : Env) (points : List LatLng) (mode : Mode) : Preview :=
  if points.length < 2 then
    { value := JsNum.fin 0, unit := previewUnit mode }
  else if mode = Mode.distance then
    { value := (sumDistances env (JsNum.fin 0) points).divConst 1000, unit := previewUnit mode }
  else if mode = Mode.area ∧ 3 ≤ points.length then
    { value := (env.geodesicArea (points.map fun p => LatLng.mk p.lat p.lng)).divConst 1000000,
      unit := previewUnit mode }
  else
    { value := JsNum.fin 0, unit := previewUnit mode }

/-- The function `handleMeasurementClick`: outside mode `'none'` the clicked
point is appended. -/
def handleMeasurementClick (measurementMode : Mode) (newPoint : LatLng) (s : SplitState) :
    SplitState :=
  if measurementMode = Mode.none then s
  else { s with measurementPoints := s.measurementPoints ++ [newPoint] }

/-- The coordinates `measurementPoints.map(p => [p.lng, p.lat])`. -/
def toCoordinates (points : List LatLng) : List Position :=
  points.map fun p => (p.lng, p.lat)

/-- The statement `coordinates.push(coordinates[0])`, on a ring that has a
first coordinate. -/
def closeRing (coordinates : List Position) : List Position :=
  coordinates ++ coordinates.take 1

/-- The guard at the head of `completeMeasurement`: the call is ignored in
mode `'none'` and below the minimum number of points of the mode. -/
def completeMeasurementIgnored (measurementMode : Mode) (s : SplitState) : Bool :=
  decide (measurementMode = Mode.none ∨
    s.measurementPoints.length < (if measurementMode = Mode.area then 3 else 2))

/-- The function `completeMeasurement`: the state it leaves and the callbacks
it calls, in order. `App` passes all three callbacks. -/
def completeMeasurement (env : Env) (measurementMode : Mode) (s : SplitState) :
    SplitState × List Call :=
  if completeMeasurementIgnored measurementMode s then
    (s, [])
  else
    let points := s.measurementPoints
    -- "Calculate final measurement value", with the first call for the backend
    let first : JsNum × List Call :=
      match measurementMode with
      | Mode.area =>
        let latlngs := points.map fun p => LatLng.mk p.lat p.lng
        let area := env.geodesicArea latlngs
        (area.divConst 1000000,
          [Call.onAreaMeasured (Geometry.Polygon [closeRing (toCoordinates points)])])
      | Mode.distance =>
        let totalDistance := sumDistances env (JsNum.fin 0) points
        (totalDistance.divConst 1000,
          [Call.onDistanceMeasured (Geometry.LineString (toCoordinates points))])
      | Mode.none => (JsNum.fin 0, [])
    -- "Update parent state with final measurement immediately"
    let update : List Call :=
      [Call.onMeasurementUpdate
        (if measurementMode = Mode.area then MeasurementKey.area else MeasurementKey.distance)
        first.1]
    -- "Also trigger the backend measurement which has its own state update"
    let second : List Call :=
      match measurementMode with
      | Mode.area => [Call.onAreaMeasured (Geometry.Polygon [closeRing (toCoordinates points)])]
      | Mode.distance => [Call.onDistanceMeasured (Geometry.LineString (toCoordinates points))]
      | Mode.none => []
    ({ measurementPoints := [],
       previewMeasurement := { value := JsNum.fin 0, unit := "" },
       isMeasuringRef := false },
     first.2 ++ update ++ second)

/-! ## geeService.js -/

/-- A parsed JSON body, as far as the handlers look at it: a falsy value, or
a truthy one with the values read from its properties `area` and `distance`. -/
inductive Json where
  | falsy
  | truthy (area : JsValue) (distance : JsValue)
  deriving DecidableEq

/-- How the HTTP exchange started by `fetch` settles: `fetch` rejects, or a
response arrives with its `ok` flag and a body that parses as JSON or not. -/
inductive FetchResult where
  | networkError
  | response (ok : Bool) (json : Option Json)
  deriving DecidableEq

/-- The function `measureArea`, after `fetch` has settled: the value the
promise resolves with, or `none` when it rejects. -/
def measureArea : FetchResult → Option Json
  | FetchResult.networkError => none
  | FetchResult.response false _ => none
  | FetchResult.response true none => none
  | FetchResult.response true (some j) => some j

/-- The function `measureDistance`, after `fetch` has settled. -/
def measureDistance : FetchResult → Option Json
  | FetchResult.networkError => none
  | FetchResult.response false _ => none
  | FetchResult.response true none => none
  | FetchResult.response true (some j) => some j

/-! ## App.jsx -/

/-- The state of `App` that the measurement session uses. -/
structure AppState where
  measurementMode : Mode
  measurements : Measurements
  previewMeasurement : Preview
  error : Option String
  deriving DecidableEq

/-- What an `async` handler does besides changing the state. -/
inductive Event where
  /-- A `POST` to `/measure-area`. -/
  | fetchMeasureArea (g : Geometry)
  /-- A `POST` to `/measure-distance`. -/
  | fetchMeasureDistance (g : Geometry)
  /-- The client-side fallback is entered. -/
  | fallback
  deriving DecidableEq

/-- The function `handleMeasurementUpdate({ [key]: value })`. -/
def handleMeasurementUpdate (key : MeasurementKey) (value : JsNum) (a : AppState) : AppState :=
  match key with
  | MeasurementKey.area => { a with measurements := { a.measurements with area := value } }
  | MeasurementKey.distance => { a with measurements := { a.measurements with distance := value } }

/-- The function `handlePreviewUpdate`. -/
def handlePreviewUpdate (preview : Preview) (a : AppState) : AppState :=
  { a with previewMeasurement := preview }

/-- The function `handlePointsUpdate`. -/
def handlePointsUpdate (pointsCount : Nat) (a : AppState) : AppState :=
  { a with measurements := { a.measurements with points := pointsCount } }

/-- The function `handleMeasurementModeChange`. -/
def handleMeasurementModeChange (mode : Mode) (a : AppState) : AppState :=
  { a with measurementMode := mode }

/-- The function `handleClearMeasurements`. -/
def handleClearMeasurements (a : AppState) : AppState :=
  { a with
    measurementMode := Mode.none
    measurements := { area := JsNum.fin 0, distance := JsNum.fin 0, points := 0 }
    previewMeasurement := { value := JsNum.fin 0, unit := "" } }

/-- The message set when the argument has no type or no coordinates. -/
def invalidGeometryMessage : String :=
  "Invalid measurement geometry. Please try drawing again."

/-- The message set when the fallback of `handleAreaMeasured` fails. -/
def areaFailedMessage : String :=
  "Failed to calculate area. Ensure the drawn polygon is closed and valid."

/-- The message set when the fallback of `handleDistanceMeasured` fails. -/
def distanceFailedMessage : String :=
  "Failed to calculate distance. Ensure the drawn line has at least two points."

/-- The conversion `coords.map(coord => L.latLng(coord[1], coord[0]))`. -/
def toLatLngs (coords : List Position) : List LatLng :=
  coords.map fun coord => LatLng.mk coord.2 coord.1

/-- The loop over the polygons of a `MultiPolygon` in the fallback of
`handleAreaMeasured`, started at `acc`; `none` when reading `poly[0].length`
throws. -/
def multiPolygonArea (env : Env) (acc : JsNum) : List (List (List Position)) → Option JsNum
  | [] => some acc
  | [] :: _ => none
  | (coords :: _) :: rest =>
    if coords.length < 3 then multiPolygonArea env acc rest
    else multiPolygonArea env
      (acc.add ((env.geodesicArea (toLatLngs coords)).divConst 1000000)) rest

/-- The value `totalArea` of the fallback of `handleAreaMeasured` before its
final test; `none` when the computation throws. -/
def fallbackTotalArea (env : Env) : Geometry → Option JsNum
  | Geometry.Polygon [] => none
  | Geometry.Polygon (coords :: _) =>
    if coords.length < 3 then none
    else some ((env.geodesicArea (toLatLngs coords)).divConst 1000000)
  | Geometry.MultiPolygon coordinates => multiPolygonArea env (JsNum.fin 0) coordinates
  | _ => none

/-- The test `total > 0 && !isNaN(total)` that ends both fallbacks: the
value is kept, or the fallback throws. -/
def acceptPositive (total : JsNum) : Option JsNum :=
  if total.gtZero ∧ ¬ total.isNaN then some total else none

/-- The client-side fallback of `handleAreaMeasured`: the area it finds, or
`none` when it throws. -/
def fallbackArea (env : Env) (g : Geometry) : Option JsNum :=
  (fallbackTotalArea env g).bind acceptPositive

/-- The loop `for (let i = 1; i < latlngs.length; i++) totalDistance +=
latlngs[i].distanceTo(latlngs[i - 1])` of the fallback, started at `acc`. -/
def sumDistancesBack (env : Env) (acc : JsNum) : List LatLng → JsNum
  | p :: q :: rest => sumDistancesBack env (acc.add (env.distanceTo q p)) (q :: rest)
  | _ => acc

/-- The loop over the lines of a `MultiLineString` in the fallback of
`handleDistanceMeasured`, started at `acc`. -/
def multiLineDistance (env : Env) (acc : JsNum) : List (List Position) → JsNum
  | [] => acc
  | line :: rest =>
    if line.length < 2 then multiLineDistance env acc rest
    else multiLineDistance env (sumDistancesBack env acc (toLatLngs line)) rest

/-- The value `totalDistance` of the fallback of `handleDistanceMeasured`, in
metres; `none` when the computation throws. -/
def fallbackTotalDistance (env : Env) : Geometry → Option JsNum
  | Geometry.LineString coords =>
    if coords.length < 2 then none
    else some (sumDistancesBack env (JsNum.fin 0) (toLatLngs coords))
  | Geometry.MultiLineString coordinates => some (multiLineDistance env (JsNum.fin 0) coordinates)
  | _ => none

/-- The client-side fallback of `handleDistanceMeasured`: the distance in
kilometres, or `none` when it throws. -/
def fallbackDistance (env : Env) (g : Geometry) : Option JsNum :=
  (fallbackTotalDistance env g).bind fun total => acceptPositive (total.divConst 1000)

/-- The value `handleAreaMeasured` takes from the backend: `none` when the
promise rejects or the test on `result.area` fails, so that the handler
throws into its `catch`. -/
def backendArea (env : Env) (r : FetchResult) : Option JsNum :=
  match measureArea r with
  | some (Json.truthy area _) =>
    if area ≠ JsValue.undefined ∧ ¬ jsIsNaN env area then some (jsParseFloat env area) else none
  | _ => none

/-- The value `handleDistanceMeasured` takes from the backend. -/
def backendDistance (env : Env) (r : FetchResult) : Option JsNum :=
  match measureDistance r with
  | some (Json.truthy _ distance) =>
    if distance ≠ JsValue.undefined ∧ ¬ jsIsNaN env distance then
      some (jsParseFloat env distance)
    else none
  | _ => none

/-- The part of `handleAreaMeasured` before its `await`: the state with the
error set when the argument is rejected, or the geometry sent with
`measureArea`. -/
def handleAreaMeasured_begin (geometry : GeometryArg) (a : AppState) : AppState ⊕ Geometry :=
  match geometry with
  | GeometryArg.valid g => Sum.inr g
  | _ => Sum.inl { a with error := some invalidGeometryMessage }

/-- The part of `handleAreaMeasured` after its `await`, with the events it
causes. -/
def handleAreaMeasured_resume (env : Env) (g : Geometry) (r : FetchResult) (a : AppState) :
    AppState × List Event :=
  match backendArea env r with
  | some finalArea =>
    ({ a with measurements := { a.measurements with area := finalArea, points := 0 } }, [])
  | none =>
    match fallbackArea env g with
    | some finalArea =>
      ({ a with measurements := { a.measurements with area := finalArea, points := 0 } },
        [Event.fallback])
    | none => ({ a with error := some areaFailedMessage }, [Event.fallback])

/-- The function `handleAreaMeasured`, run until its promise settles. -/
def handleAreaMeasured (env : Env) (r : FetchResult) (geometry : GeometryArg) (a : AppState) :
    AppState × List Event :=
  match handleAreaMeasured_begin geometry a with
  | Sum.inl a1 => (a1, [])
  | Sum.inr g =>
    let res := handleAreaMeasured_resume env g r a
    (res.1, Event.fetchMeasureArea g :: res.2)

/-- The part of `handleDistanceMeasured` before its `await`. -/
def handleDistanceMeasured_begin (geometry : GeometryArg) (a : AppState) : AppState ⊕ Geometry :=
  match geometry with
  | GeometryArg.valid g => Sum.inr g
  | _ => Sum.inl { a with error := some invalidGeometryMessage }

/-- The part of `handleDistanceMeasured` after its `await`. -/
def handleDistanceMeasured_resume (env : Env) (g : Geometry) (r : FetchResult) (a : AppState) :
    AppState × List Event :=
  match backendDistance env r with
  | some finalDistance =>
    ({ a with measurements := { a.measurements with distance := finalDistance, points := 0 } },
      [])
  | none =>
    match fallbackDistance env g with
    | some finalDistance =>
      ({ a with measurements := { a.measurements with distance := finalDistance, points := 0 } },
        [Event.fallback])
    | none => ({ a with error := some distanceFailedMessage }, [Event.fallback])

/-- The function `handleDistanceMeasured`, run until its promise settles. -/
def handleDistanceMeasured (env : Env) (r : FetchResult) (geometry : GeometryArg)
    (a : AppState) : AppState × List Event :=
  match handleDistanceMeasured_begin geometry a with
  | Sum.inl a1 => (a1, [])
  | Sum.inr g =>
    let res := handleDistanceMeasured_resume env g r a
    (res.1, Event.fetchMeasureDistance g :: res.2)

/-! ## The two components together -/

/-- A request whose response has not arrived yet. -/
structure Pending where
  key : MeasurementKey
  geometry : Geometry
  deriving DecidableEq

/-- The state of the application: `App`, `SplitMapComponent`, and the
requests in flight, oldest first. -/
structure Sys where
  app : AppState
  split : SplitState
  pending : List Pending
  deriving DecidableEq

/-- One callback call of `SplitMapComponent`, handled by `App` up to the
first `await` of the handler. -/
def dispatch (c : Call) (s : Sys) : Sys :=
  match c with
  | Call.onAreaMeasured g =>
    match handleAreaMeasured_begin (GeometryArg.valid g) s.app with
    | Sum.inl a => { s with app := a }
    | Sum.inr sent => { s with pending := s.pending ++ [⟨MeasurementKey.area, sent⟩] }
  | Call.onDistanceMeasured g =>
    match handleDistanceMeasured_begin (GeometryArg.valid g) s.app with
    | Sum.inl a => { s with app := a }
    | Sum.inr sent => { s with pending := s.pending ++ [⟨MeasurementKey.distance, sent⟩] }
  | Call.onMeasurementUpdate key value => { s with app := handleMeasurementUpdate key value s.app }

/-- The effect that depends on `previewMeasurement` and on `onPreviewUpdate`:
it calls `onPreviewUpdate(previewMeasurement)`. `App` builds a new
`handlePreviewUpdate` at each of its renders, so the effect runs after every
change of the state of `App` too. -/
def previewEffect (s : Sys) : Sys :=
  { s with app := handlePreviewUpdate s.split.previewMeasurement s.app }

/-- The effects that depend on `measurementPoints`, after the points have been
set: `onPointsUpdate(measurementPoints.length)`, the preview effect, and
`onPreviewUpdate(previewMeasurement)`. -/
def pointsEffects (env : Env) (s : Sys) : Sys :=
  let preview : Preview :=
    if 0 < s.split.measurementPoints.length then
      calculatePreviewMeasurement env s.split.measurementPoints s.app.measurementMode
    else { value := JsNum.fin 0, unit := "" }
  { s with
    app := handlePreviewUpdate preview
      (handlePointsUpdate s.split.measurementPoints.length s.app)
    split := { s.split with previewMeasurement := preview } }

/-- The effect that depends on `measurementMode`, after the mode has changed:
`clearMeasurementLayers()` empties the points, `isMeasuringRef.current` is set
to `measurementMode !== 'none'`, and the effects of the points follow. -/
def modeEffect (env : Env) (s : Sys) : Sys :=
  pointsEffects env
    { s with
      split := { s.split with
        measurementPoints := []
        isMeasuringRef := decide (s.app.measurementMode ≠ Mode.none) } }

/-- The call `completeMeasurement()` inside the application: the callbacks are
handled in order, and the state of `SplitMapComponent` is replaced. -/
def runCompleteMeasurement (env : Env) (s : Sys) : Sys :=
  let res := completeMeasurement env s.app.measurementMode s.split
  res.2.foldl (fun acc c => dispatch c acc) { s with split := res.1 }

/-- The call `completeMeasurement()` followed by the effects of the points
when it has set them. -/
def finalize (env : Env) (s : Sys) : Sys :=
  if completeMeasurementIgnored s.app.measurementMode s.split then
    runCompleteMeasurement env s
  else
    pointsEffects env (runCompleteMeasurement env s)

/-- The function `handleDoubleClick`: it calls `completeMeasurement()`. -/
def handleDoubleClick (env : Env) (s : Sys) : Sys :=
  finalize env s

/-- The change of `measurementMode` to `mode` by `setMeasurementMode`, followed
by the mode effect when the mode is a new one. -/
def setMeasurementMode (env : Env) (mode : Mode) (s : Sys) : Sys :=
  if s.app.measurementMode = mode then s
  else modeEffect env { s with app := handleMeasurementModeChange mode s.app }

/-- The function `handleCompleteMeasurement`: `window.completeMeasurementCallback`
is the `completeMeasurement` of the mounted `SplitMapComponent`; then the mode
is set to `'none'`. -/
def handleCompleteMeasurement (env : Env) (s : Sys) : Sys :=
  setMeasurementMode env Mode.none (finalize env s)

/-- The function `handleClearMeasurements` inside the application, followed
by the mode effect when the mode was not `'none'`. -/
def clearMeasurements (env : Env) (s : Sys) : Sys :=
  let s1 : Sys := { s with app := handleClearMeasurements s.app }
  if s.app.measurementMode = Mode.none then previewEffect s1 else modeEffect env s1

/-- The arrival of the response to the in-flight request number `i`: the
handler that sent it resumes, and `App` renders with the state it has set. -/
def receiveResponse (env : Env) (i : Nat) (r : FetchResult) (s : Sys) : Sys :=
  match s.pending[i]? with
  | none => s
  | some p =>
    match p.key with
    | MeasurementKey.area =>
      previewEffect
        { s with
          app := (handleAreaMeasured_resume env p.geometry r s.app).1
          pending := s.pending.eraseIdx i }
    | MeasurementKey.distance =>
      previewEffect
        { s with
          app := (handleDistanceMeasured_resume env p.geometry r s.app).1
          pending := s.pending.eraseIdx i }

/-- The steps of the session. -/
inductive Step where
  /-- The mode is changed with `handleMeasurementModeChange`. -/
  | setMode (mode : Mode)
  /-- The command `handleClearMeasurements`. -/
  | clear
  /-- One call of `handleMeasurementClick` with the clicked point. -/
  | addPoint (p : LatLng)
  /-- A double-click on a viewport. -/
  | doubleClick
  /-- The command `handleCompleteMeasurement`. -/
  | complete
  /-- The response to the in-flight request number `i` arrives. -/
  | response (i : Nat) (r : FetchResult)

/-- One step of the session. -/
def step (env : Env) (s : Sys) : Step → Sys
  | Step.setMode mode => setMeasurementMode env mode s
  | Step.clear => clearMeasurements env s
  | Step.addPoint p =>
    if s.app.measurementMode = Mode.none then s
    else pointsEffects env
      { s with split := handleMeasurementClick s.app.measurementMode p s.split }
  | Step.doubleClick => handleDoubleClick env s
  | Step.complete => handleCompleteMeasurement env s
  | Step.response i r => receiveResponse env i r s

/-- A run of the session: the steps are taken in order. -/
def run (env : Env) (s : Sys) (steps : List Step) : Sys :=
  steps.foldl (step env) s

/-! ## Leaflet's geodesic area -/

/-- The two things the area formula takes from `Math`, as exact rationals:
the factor `Math.PI / 180` and the function `Math.sin`. -/
structure Trig where
  d2r : ℚ
  sin : ℚ → ℚ

/-- Modelled from the spec: `L.GeometryUtil.geodesicArea` belongs to
Leaflet.draw and is not under `src/`. This is the term the formula adds for
the consecutive vertices `p1` and `p2`:
`(p2.lng - p1.lng) * d2r * (2 + sin(p1.lat * d2r) + sin(p2.lat * d2r))`. -/
def areaTerm (t : Trig) (p1 p2 : LatLng) : ℚ :=
  ((p2.lng - p1.lng) * t.d2r) * (2 + t.sin (p1.lat * t.d2r) + t.sin (p2.lat * t.d2r))

/-- Modelled from the spec: the sum of the shoelace formula over the
consecutive vertex pairs `latLngs[i]`, `latLngs[(i + 1) % n]`, with
wrap-around from the last vertex to the first. -/
def ringSum (t : Trig) (latLngs : List LatLng) : ℚ :=
  ((List.range latLngs.length).map fun i =>
    areaTerm t (latLngs.getD i ⟨0, 0⟩) (latLngs.getD ((i + 1) % latLngs.length) ⟨0, 0⟩)).sum

/-- Modelled from the spec: `L.GeometryUtil.geodesicArea` of Leaflet.draw, the
shoelace formula over consecutive vertex pairs with wrap-around, scaled by
half the square of the earth radius and taken in absolute value; a list of
fewer than three vertices has area 0. -/
def leafletGeodesicArea (t : Trig) (latLngs : List LatLng) : JsNum :=
  if 2 < latLngs.length then
    JsNum.fin (abs (ringSum t latLngs * 6378137 * 6378137 / 2))
  else JsNum.fin 0

/-- The environment in which `L.GeometryUtil.geodesicArea` is the formula of
Leaflet.draw. -/
def withLeafletArea (t : Trig) (env : Env) : Env :=
  { env with geodesicArea := leafletGeodesicArea t }

/-! ## The sums of the specification -/

/-- The sum `d(points[0], points[1]) + ... + d(points[n-2], points[n-1])` of
the pairwise distances of consecutive points, in metres. -/
def consecutiveDistanceSum (env : Env) (points : List LatLng) : JsNum :=
  ((List.range (points.length - 1)).map fun i =>
    env.distanceTo (points.getD i ⟨0, 0⟩) (points.getD (i + 1) ⟨0, 0⟩)).foldl
      JsNum.add (JsNum.fin 0)

/-- The sum, over the polygons whose exterior ring `poly[0]` has at least 3
coordinates, of `geodesicArea(exterior ring) / 1000000`. -/
def multiPolygonSum (env : Env) (polys : List (List (List Position))) : JsNum :=
  ((polys.filter fun poly => decide (3 ≤ (poly.headD []).length)).map fun poly =>
    (env.geodesicArea (toLatLngs (poly.headD []))).divConst 1000000).foldl
      JsNum.add (JsNum.fin 0)

/-! ## The click listeners of SplitMapComponent.jsx -/

/-- The function `handleLocationClick`: the arguments of the calls of
`onLocationChange` it makes. -/
def handleLocationClick (measurementMode : Mode) (latlng : LatLng) : List LatLng :=
  if measurementMode = Mode.none then [{ lat := latlng.lat, lng := latlng.lng }] else []

/-- The two viewports. -/
inductive Viewport where
  | before
  | after
  deriving DecidableEq

/-- The `'click'` listeners registered on one map. Every listener is a
closure of one render, and holds the `measurementMode` of that render. -/
structure MapListeners where
  /-- The `handleLocationClick` that the last run of the listener effect has
  registered, if it has. -/
  location : Option Mode
  /-- The arrows `(e) => handleMeasurementClick(e, map)` registered so far,
  oldest first. -/
  arrows : List Mode
  deriving DecidableEq

/-- The cleanup that `addEventListeners` returns, as far as `'click'` goes:
`map.off('click', handleLocationClick)` removes the listener of the same run;
`map.off('click', handleMeasurementClick)` names a function that was never
registered, since the arrow around it was, and removes nothing. -/
def removeEventListeners (m : MapListeners) : MapListeners :=
  { m with location := none }

/-- The function `addEventListeners` of the listener effect, as far as
`'click'` goes, on a map that is initialised. -/
def addEventListeners (measurementMode : Mode) (m : MapListeners) : MapListeners :=
  if measurementMode = Mode.none then { m with location := some measurementMode }
  else { m with arrows := m.arrows ++ [measurementMode] }

/-- The application with the click listeners of its two maps and the calls of
`onLocationChange` made so far. -/
structure Host where
  sys : Sys
  before : MapListeners
  after : MapListeners
  relocations : List LatLng
  deriving DecidableEq

/-- The click listeners of a viewport. -/
def Host.listeners (h : Host) : Viewport → MapListeners
  | Viewport.before => h.before
  | Viewport.after => h.after

/-- One run of the listener effect: the cleanup of the previous run, then
`addEventListeners` on both maps. The effect depends on the handlers, which
are new at each render, so it runs after every render. -/
def listenerEffect (h : Host) : Host :=
  { h with
    before := addEventListeners h.sys.app.measurementMode (removeEventListeners h.before)
    after := addEventListeners h.sys.app.measurementMode (removeEventListeners h.after) }

/-- A click at `latlng` on the viewport `v`: every listener registered on that
map is called, each with the mode its closure holds; the render that follows
runs the effects of the points and the listener effect. -/
def fireClick (env : Env) (v : Viewport) (latlng : LatLng) (h : Host) : Host :=
  let m := h.listeners v
  let split1 := m.arrows.foldl (fun s c => handleMeasurementClick c latlng s) h.sys.split
  let relocated : List LatLng :=
    match m.location with
    | some c => handleLocationClick c latlng
    | none => []
  if split1 = h.sys.split ∧ relocated = [] then h
  else
    listenerEffect
      { h with
        sys :=
          if split1 = h.sys.split then h.sys
          else pointsEffects env { h.sys with split := split1 }
        relocations := h.relocations ++ relocated }

/-- The events of the application with its listeners. -/
inductive HostStep where
  /-- The mode is changed with `handleMeasurementModeChange`. -/
  | setMode (mode : Mode)
  /-- The command `handleClearMeasurements`. -/
  | clear
  /-- A click on a viewport. -/
  | click (v : Viewport) (latlng : LatLng)
  /-- A double-click on a viewport. -/
  | doubleClick
  /-- The command `handleCompleteMeasurement`. -/
  | complete
  /-- The response to the in-flight request number `i` arrives. -/
  | response (i : Nat) (r : FetchResult)
  /-- A render of `SplitMapComponent` for any other reason. -/
  | render

/-- One event of the application with its listeners. An event that changes
the state is followed by one run of the listener effect; the further renders
of the same event are `render` events. -/
def hostStep (env : Env) (h : Host) : HostStep → Host
  | HostStep.setMode mode =>
    if h.sys.app.measurementMode = mode then h
    else listenerEffect { h with sys := setMeasurementMode env mode h.sys }
  | HostStep.clear => listenerEffect { h with sys := clearMeasurements env h.sys }
  | HostStep.click v latlng => fireClick env v latlng h
  | HostStep.doubleClick =>
    if completeMeasurementIgnored h.sys.app.measurementMode h.sys.split then h
    else listenerEffect { h with sys := handleDoubleClick env h.sys }
  | HostStep.complete =>
    if completeMeasurementIgnored h.sys.app.measurementMode h.sys.split ∧
        h.sys.app.measurementMode = Mode.none then h
    else listenerEffect { h with sys := handleCompleteMeasurement env h.sys }
  | HostStep.response i r =>
    match h.sys.pending[i]? with
    | none => h
    | some _ => listenerEffect { h with sys := receiveResponse env i r h.sys }
  | HostStep.render => listenerEffect h

/-- A run of the application with its listeners. -/
def hostRun (env : Env) (h : Host) (steps : List HostStep) : Host :=
  steps.foldl (hostStep env) h

/-- The application after its first renders: mode `'none'`, no points, and
on each map the `handleLocationClick` of the last render. -/
def initialHost : Host :=
  { sys :=
      { app :=
          { measurementMode := Mode.none
            measurements := { area := JsNum.fin 0, distance := JsNum.fin 0, points := 0 }
            previewMeasurement := { value := JsNum.fin 0, unit := "" }
            error := none }
        split :=
          { measurementPoints := []
            previewMeasurement := { value := JsNum.fin 0, unit := "" }
            isMeasuringRef := false }
        pending := [] }
    before := { location := some Mode.none, arrows := [] }
    after := { location := some Mode.none, arrows := [] }
    relocations := [] }

/-! ## MapSync: the synchronisation of the two views -/

/-- The view of a map: what `getCenter()` and `getZoom()` return. -/
structure ViewState where
  center : LatLng
  zoom : Int
  deriving DecidableEq

/-- The other viewport. -/
def otherViewport : Viewport → Viewport
  | Viewport.before => Viewport.after
  | Viewport.after => Viewport.before

/-- The state that the two `MapSync` components work on, both maps being
initialised: the views of the two maps, the `isSyncing` ref of the `MapSync`
mounted in each map, `isMeasuringRef.current`, the shared zoom `mapZoom` of
`App` with the calls of `onZoomChange`, the calls of `setView`, and the
timeouts that will reset an `isSyncing` ref. -/
structure Coordinator where
  before : ViewState
  after : ViewState
  beforeSyncing : Bool
  afterSyncing : Bool
  isMeasuring : Bool
  mapZoom : Int
  zoomChanges : List Int
  setViews : List (Viewport × ViewState)
  timers : List Viewport
  deriving DecidableEq

namespace Coordinator

/-- The view of a map. -/
def view (s : Coordinator) : Viewport → ViewState
  | Viewport.before => s.before
  | Viewport.after => s.after

/-- The ref `isSyncing.current` of the `MapSync` mounted in the map `i`. -/
def isSyncing (s : Coordinator) : Viewport → Bool
  | Viewport.before => s.beforeSyncing
  | Viewport.after => s.afterSyncing

/-- The assignment `isSyncing.current = b` in the `MapSync` mounted in `i`. -/
def setSyncing (s : Coordinator) (i : Viewport) (b : Bool) : Coordinator :=
  match i with
  | Viewport.before => { s with beforeSyncing := b }
  | Viewport.after => { s with afterSyncing := b }

/-- The call `setView(center, zoom)` on the map `v`, without animation: the
map takes that view at once. -/
def setView (s : Coordinator) (v : Viewport) (center : LatLng) (zoom : Int) : Coordinator :=
  match v with
  | Viewport.before =>
    { s with before := ⟨center, zoom⟩, setViews := s.setViews ++ [(v, ⟨center, zoom⟩)] }
  | Viewport.after =>
    { s with after := ⟨center, zoom⟩, setViews := s.setViews ++ [(v, ⟨center, zoom⟩)] }

end Coordinator

/-- The callback `onZoomChange`, which is `setMapZoom` of `App`. -/
def onZoomChange (zoom : Int) (s : Coordinator) : Coordinator :=
  { s with mapZoom := zoom, zoomChanges := s.zoomChanges ++ [zoom] }

/-- The handler `onMoveEnd` of the `MapSync` mounted in the map `i`; `fire v`
is what the `'moveend'` event of the map `v` runs when `setView` raises it,
`none` when that does not return. -/
def onMoveEnd (fire : Viewport → Coordinator → Option Coordinator) (i : Viewport)
    (s : Coordinator) : Option Coordinator :=
  if s.isSyncing i ∨ s.isMeasuring then some s
  else
    let s1 := s.setSyncing i true
    let center := (s1.view i).center
    let zoom := (s1.view i).zoom
    let s2 := onZoomChange zoom s1
    (fire (otherViewport i) (s2.setView (otherViewport i) center zoom)).map fun s3 =>
      { s3 with timers := s3.timers ++ [i] }

/-- The handler `onOtherMapMoveEnd` of the `MapSync` mounted in the map `i`. -/
def onOtherMapMoveEnd (fire : Viewport → Coordinator → Option Coordinator) (i : Viewport)
    (s : Coordinator) : Option Coordinator :=
  if s.isSyncing i ∨ s.isMeasuring then some s
  else
    let s1 := s.setSyncing i true
    let center := (s1.view (otherViewport i)).center
    let zoom := (s1.view (otherViewport i)).zoom
    let s2 := onZoomChange zoom s1
    (fire i (s2.setView i center zoom)).map fun s3 =>
      { s3 with timers := s3.timers ++ [i] }

/-- The callback of `setTimeout` in the handlers of the `MapSync` mounted in
`i`: `isSyncing.current = false`. -/
def releaseGuard (i : Viewport) (s : Coordinator) : Coordinator :=
  { s.setSyncing i false with timers := s.timers.erase i }

/-- A `setView` that moves the map while no listener reacts to it. -/
def noListeners (_ : Viewport) (s : Coordinator) : Option Coordinator :=
  some s

/-- The `'moveend'` event of the map `v` in the model in which every
`setView` raises `'moveend'` on its map at once: the listeners on that map
are the `onMoveEnd` of the `MapSync` mounted in it and the `onOtherMapMoveEnd`
of the `MapSync` mounted in the other map. `fuel` bounds the nesting of the
events; `none` means that the bound was reached. -/
def fireMoveEnd : Nat → Viewport → Coordinator → Option Coordinator
  | 0, _, _ => none
  | fuel + 1, v, s =>
    (onMoveEnd (fireMoveEnd fuel) v s).bind fun s1 =>
      onOtherMapMoveEnd (fireMoveEnd fuel) (otherViewport v) s1

/-! ## The overlay of SplitMapComponent.jsx -/

/-- A layer that `drawOnMap` adds to a layer group: `L.marker`, `L.polyline`
(with a `dashArray` or without) or `L.polygon`, with the points it is built
from. -/
inductive Shape where
  | marker (latlng : LatLng)
  | polyline (latlngs : List LatLng) (dashed : Bool)
  | polygon (latlngs : List LatLng)
  deriving DecidableEq

/-- The function `drawOnMap`: the layers of the layer group after the call.
`mapReady` says that `mapRef.current` is set; the layer group itself always
is. -/
def drawOnMap (mapReady : Bool) (layers : List Shape) (points : List LatLng) (mode : Mode) :
    List Shape :=
  if mapReady = false ∨ points.length = 0 then layers
  else
    -- `layerGroup.current.clearLayers()`, then at most one layer is added
    match points with
    | [p] => [Shape.marker p]
    | _ =>
      if mode = Mode.distance then [Shape.polyline points false]
      else if mode = Mode.area ∧ 3 ≤ points.length then
        [Shape.polygon (points ++ points.take 1)]
      else if mode = Mode.area then [Shape.polyline points true]
      else []

/-- The variable `unit` of `completeMeasurement`, which it writes to the
console with the final value. -/
def completeMeasurementUnit (measurementMode : Mode) : String :=
  match measurementMode with
  | Mode.area => "km²"
  | Mode.distance => "km"
  | Mode.none => ""

/-- The application with the layer groups of its two maps. -/
structure Overlay where
  sys : Sys
  beforeLayers : List Shape
  afterLayers : List Shape
  deriving DecidableEq

/-- The function `clearMeasurementLayers`, as far as the layer groups go:
`clearLayers()` on both. That it also empties the points is part of
`modeEffect`. -/
def clearMeasurementLayers (o : Overlay) : Overlay :=
  { o with beforeLayers := [], afterLayers := [] }

/-- The function `drawMeasurementPreview` of the render whose points and mode
are `points` and `mode`, both maps being initialised. -/
def drawMeasurementPreview (points : List LatLng) (mode : Mode) (o : Overlay) : Overlay :=
  { o with
    beforeLayers := drawOnMap true o.beforeLayers points mode
    afterLayers := drawOnMap true o.afterLayers points mode }

/-- One step of the session with the layer groups. The draw effect runs when
the points or the mode of the render are new, with the points and the mode of
that render. A change of mode is first rendered with the points still there:
in that render the mode effect clears the layer groups and asks for the points
to be emptied, and the draw effect draws the points it has; the next render
has no points. -/
def overlayStep (env : Env) (o : Overlay) : Step → Overlay
  | Step.setMode mode =>
    if o.sys.app.measurementMode = mode then o
    else
      let first :=
        drawMeasurementPreview o.sys.split.measurementPoints mode (clearMeasurementLayers o)
      let sys1 := setMeasurementMode env mode o.sys
      drawMeasurementPreview sys1.split.measurementPoints mode { first with sys := sys1 }
  | Step.clear =>
    if o.sys.app.measurementMode = Mode.none then
      { o with sys := clearMeasurements env o.sys }
    else
      let first :=
        drawMeasurementPreview o.sys.split.measurementPoints Mode.none
          (clearMeasurementLayers o)
      let sys1 := clearMeasurements env o.sys
      drawMeasurementPreview sys1.split.measurementPoints Mode.none { first with sys := sys1 }
  | Step.addPoint p =>
    if o.sys.app.measurementMode = Mode.none then o
    else
      let sys1 := step env o.sys (Step.addPoint p)
      drawMeasurementPreview sys1.split.measurementPoints sys1.app.measurementMode
        { o with sys := sys1 }
  | Step.doubleClick =>
    if completeMeasurementIgnored o.sys.app.measurementMode o.sys.split then o
    else
      let sys1 := handleDoubleClick env o.sys
      drawMeasurementPreview sys1.split.measurementPoints sys1.app.measurementMode
        { o with sys := sys1 }
  | Step.complete =>
    if o.sys.app.measurementMode = Mode.none then o
    else
      let rendered : List LatLng :=
        if completeMeasurementIgnored o.sys.app.measurementMode o.sys.split then
          o.sys.split.measurementPoints
        else []
      let first := drawMeasurementPreview rendered Mode.none (clearMeasurementLayers o)
      let sys1 := handleCompleteMeasurement env o.sys
      drawMeasurementPreview sys1.split.measurementPoints Mode.none { first with sys := sys1 }
  | Step.response i r => { o with sys := receiveResponse env i r o.sys }

/-- A run of the session with the layer groups. -/
def overlayRun (env : Env) (o : Overlay) (steps : List Step) : Overlay :=
  steps.foldl (overlayStep env) o

/-! ## locationHistory.js -/

/-- A location object: its `display_name` and its other properties. -/
structure Location where
  display_name : String
  others : List (String × String)
  deriving DecidableEq

/-- The constant `MAX_HISTORY_ITEMS`. -/
def MAX_HISTORY_ITEMS : Nat := 15

/-- The item of `localStorage` under `LOCATION_HISTORY_KEY`: absent, or the
JSON text of a list of locations. -/
abbrev Storage := Option (List Location)

/-- The function `getLocationHistory`. -/
def getLocationHistory (storage : Storage) : List Location :=
  match storage with
  | some history => history
  | none => []

/-- The function `addLocationToHistory`: the item after the call. `writable`
says that `localStorage.setItem` stores the text; when it throws instead, the
`catch` leaves the item as it was. -/
def addLocationToHistory (writable : Bool) (location : Location) (storage : Storage) :
    Storage :=
  let history := getLocationHistory storage
  let filteredHistory := history.filter fun item => item.display_name != location.display_name
  let newHistory := location :: filteredHistory
  let trimmedHistory := newHistory.take MAX_HISTORY_ITEMS
  if writable then some trimmedHistory else storage

/-! ## Sample data -/

/-- An environment for evaluating the code: the area of a ring is two square
kilometres per vertex and every distance is one kilometre. -/
def sampleEnv : Env :=
  { geodesicArea := fun ls => JsNum.fin (2000000 * ls.length)
    distanceTo := fun _ _ => JsNum.fin 1000
    stringToNumber := fun _ => JsNum.nan
    parseFloatString := fun _ => JsNum.nan }

/-- An environment in which every ring has area zero and every distance is
zero. -/
def flatEnv : Env :=
  { geodesicArea := fun _ => JsNum.fin 0
    distanceTo := fun _ _ => JsNum.fin 0
    stringToNumber := fun _ => JsNum.nan
    parseFloatString := fun _ => JsNum.nan }

/-- Three points. -/
def triangle : List LatLng :=
  [⟨0, 0⟩, ⟨0, 1⟩, ⟨1, 0⟩]

/-- The polygon that `completeMeasurement` builds from `triangle`. -/
def triangleGeometry : Geometry :=
  Geometry.Polygon [[(0, 0), (1, 0), (0, 1), (0, 0)]]

/-- Two points. -/
def segment : List LatLng :=
  [⟨0, 0⟩, ⟨0, 1⟩]

/-- The state of the application while the points `pts` are collected in mode
`mode`, with no request in flight. -/
def collecting (mode : Mode) (pts : List LatLng) : Sys :=
  { app :=
      { measurementMode := mode
        measurements := { area := JsNum.fin 0, distance := JsNum.fin 0, points := pts.length }
        previewMeasurement := { value := JsNum.fin 0, unit := "" }
        error := none }
    split :=
      { measurementPoints := pts
        previewMeasurement := { value := JsNum.fin 0, unit := "" }
        isMeasuringRef := true }
    pending := [] }

/-- A successful response whose body is `\x7b"area": x\x7d`. -/
def areaResponse (x : JsValue) : FetchResult :=
  FetchResult.response true (some (Json.truthy x JsValue.undefined))

/-- A successful response whose body is `\x7b"distance": x\x7d`. -/
def distanceResponse (x : JsValue) : FetchResult :=
  FetchResult.response true (some (Json.truthy JsValue.undefined x))

/-- The responses `rs`, each with the number of the request it answers, as
steps of the session. -/
def responseSteps (rs : List (Nat × FetchResult)) : List Step :=
  rs.map fun x => Step.response x.1 x.2

/-- A double-click on `triangle` in area mode, after which both requests fail
and the fallback finds area zero. -/
def failedFinalize : Sys :=
  run flatEnv (collecting Mode.area triangle)
    [Step.doubleClick, Step.response 0 FetchResult.networkError,
      Step.response 0 FetchResult.networkError]

/-- A double-click on `triangle` in area mode, after which both requests are
answered with the area 3/2. -/
def succeededFinalize : Sys :=
  run sampleEnv (collecting Mode.area triangle)
    [Step.doubleClick, Step.response 0 (areaResponse (JsValue.num (JsNum.fin (3 / 2)))),
      Step.response 0 (areaResponse (JsValue.num (JsNum.fin (3 / 2))))]

/-- A polygon whose only ring has two coordinates. -/
def shortPolygon : Geometry :=
  Geometry.Polygon [[(0, 0), (1, 1)]]

/-- A double-click on `triangle` in area mode, followed by the clear command
while both requests are in flight. -/
def clearedInFlight : Sys :=
  run sampleEnv (collecting Mode.area triangle) [Step.doubleClick, Step.clear]

/-- A stand-in for `Math`: the factor is 1/60 and the sine is the identity. -/
def sampleTrig : Trig :=
  { d2r := 1 / 60
    sin := fun x => x }

/-- A session in area mode in which two points have been added. -/
def twoPointSession : Sys :=
  run sampleEnv initialHost.sys
    [Step.setMode Mode.area, Step.addPoint ⟨0, 0⟩, Step.addPoint ⟨0, 1⟩]

/-- The application after area mode is entered and left, and a viewport is
then clicked. -/
def staleListenerRun : Host :=
  hostRun sampleEnv initialHost
    [HostStep.setMode Mode.area, HostStep.setMode Mode.none,
      HostStep.click Viewport.before ⟨1, 2⟩]

/-- The application after area mode is entered, the component renders once
more, and a viewport is clicked. -/
def repeatedListenerRun : Host :=
  hostRun sampleEnv initialHost
    [HostStep.setMode Mode.area, HostStep.render, HostStep.click Viewport.before ⟨1, 2⟩]

/-- A coordinator at rest: the two maps show different views, no `MapSync`
is syncing, and `isMeasuringRef.current` is `measuring`. -/
def restingCoordinator (measuring : Bool) : Coordinator :=
  { before := { center := ⟨1, 2⟩, zoom := 12 }
    after := { center := ⟨3, 4⟩, zoom := 10 }
    beforeSyncing := false
    afterSyncing := false
    isMeasuring := measuring
    mapZoom := 10
    zoomChanges := []
    setViews := []
    timers := [] }

/-- The application after distance mode is entered, two clicks are made and
a double-click finishes the measurement. -/
def finishedByDoubleClick : Host :=
  hostRun sampleEnv initialHost
    [HostStep.setMode Mode.distance, HostStep.click Viewport.before ⟨0, 0⟩,
      HostStep.click Viewport.before ⟨0, 1⟩, HostStep.doubleClick]

/-- The application with empty layer groups, before any measurement. -/
def initialOverlay : Overlay :=
  { sys := initialHost.sys, beforeLayers := [], afterLayers := [] }

/-- The application after area mode is entered, three points are added and a
double-click finishes the measurement. -/
def finishedOverlay : Overlay :=
  overlayRun sampleEnv initialOverlay
    [Step.setMode Mode.area, Step.addPoint ⟨0, 0⟩, Step.addPoint ⟨0, 1⟩, Step.addPoint ⟨1, 0⟩,
      Step.doubleClick]

/-- A location named `name`. -/
def place (name : String) : Location :=
  { display_name := name, others := [] }

/-- The application after area mode is entered and left again. -/
def enteredAndLeft : Host :=
  hostRun sampleEnv initialHost [HostStep.setMode Mode.area, HostStep.setMode Mode.none]

/-! ## Lemmas on the session -/

theorem completeMeasurementIgnored_iff (mode : Mode) (s : SplitState) :
    completeMeasurementIgnored mode s = true ↔
      (mode = Mode.none ∨ (mode = Mode.area ∧ s.measurementPoints.length < 3) ∨
        (mode = Mode.distance ∧ s.measurementPoints.length < 2)) := by
  cases mode <;> simp [completeMeasurementIgnored]

theorem completeMeasurement_of_ignored (env : Env) (mode : Mode) (s : SplitState)
    (h : completeMeasurementIgnored mode s = true) :
    completeMeasurement env mode s = (s, []) := by
  simp [completeMeasurement, h]

theorem finalize_of_ignored (env : Env) (s : Sys)
    (h : completeMeasurementIgnored s.app.measurementMode s.split = true) :
    finalize env s = s := by
  simp [finalize, runCompleteMeasurement, completeMeasurement, h]

/-! ## Finalize -/

/-- C1 (evaluation at the failing input): in area mode with three points one
call of `completeMeasurement` calls `onAreaMeasured` twice with the same
polygon, around the single `onMeasurementUpdate`, and two requests are in
flight after it. -/
theorem completeMeasurement_hands_geometry_twice :
    (completeMeasurement sampleEnv Mode.area (collecting Mode.area triangle).split).2 =
        [Call.onAreaMeasured triangleGeometry,
          Call.onMeasurementUpdate MeasurementKey.area (JsNum.fin 6),
          Call.onAreaMeasured triangleGeometry] ∧
      (finalize sampleEnv (collecting Mode.area triangle)).pending =
        [⟨MeasurementKey.area, triangleGeometry⟩, ⟨MeasurementKey.area, triangleGeometry⟩] := by
  constructor
  · simp [completeMeasurement, completeMeasurementIgnored, collecting, triangle, sampleEnv,
      closeRing, toCoordinates, JsNum.divConst, triangleGeometry]
    norm_num
  · simp [finalize, runCompleteMeasurement, completeMeasurement, completeMeasurementIgnored,
      collecting, triangle, sampleEnv, closeRing, toCoordinates, JsNum.divConst, dispatch,
      pointsEffects, handleAreaMeasured_begin, triangleGeometry, handlePreviewUpdate,
      handlePointsUpdate, handleMeasurementUpdate]

/-- C2 (counterexample): in area mode with two points, below the minimum of
three, the complete command is not a no-op: the mode becomes `'none'`, the
points are emptied and the measuring flag is cleared. -/
theorem handleCompleteMeasurement_below_minimum_changes_state :
    (collecting Mode.area segment).app.measurementMode = Mode.area ∧
      (collecting Mode.area segment).split.measurementPoints.length < 3 ∧
      (handleCompleteMeasurement sampleEnv (collecting Mode.area segment)).app.measurementMode
        = Mode.none ∧
      (handleCompleteMeasurement sampleEnv (collecting Mode.area segment)).split.measurementPoints
        = [] ∧
      (handleCompleteMeasurement sampleEnv (collecting Mode.area segment)).split.isMeasuringRef
        = false ∧
      handleCompleteMeasurement sampleEnv (collecting Mode.area segment)
        ≠ collecting Mode.area segment := by
  have h : handleCompleteMeasurement sampleEnv (collecting Mode.area segment) =
      { collecting Mode.area [] with
        app := { (collecting Mode.area []).app with measurementMode := Mode.none }
        split := { (collecting Mode.area []).split with isMeasuringRef := false } } := by
    simp [handleCompleteMeasurement, setMeasurementMode, finalize, runCompleteMeasurement,
      completeMeasurement, completeMeasurementIgnored, collecting, segment, modeEffect,
      pointsEffects, handleMeasurementModeChange, handlePreviewUpdate, handlePointsUpdate]
  rw [h]
  simp [collecting, segment]

/-- C2 (amended): below the minimum of the mode, or in mode `'none'`,
`completeMeasurement` changes nothing and calls no callback, and the
double-click leaves the whole application unchanged. The complete command calls
no callback either (no request is sent, the stored area, distance and error
are unchanged), but it leaves the mode at `'none'`; it is a no-op when the
mode was `'none'` already. -/
theorem finalize_below_minimum (env : Env) (s : Sys)
    (h : s.app.measurementMode = Mode.none ∨
      (s.app.measurementMode = Mode.area ∧ s.split.measurementPoints.length < 3) ∨
      (s.app.measurementMode = Mode.distance ∧ s.split.measurementPoints.length < 2)) :
    completeMeasurement env s.app.measurementMode s.split = (s.split, []) ∧
      handleDoubleClick env s = s ∧
      (handleCompleteMeasurement env s).pending = s.pending ∧
      (handleCompleteMeasurement env s).app.measurements.area = s.app.measurements.area ∧
      (handleCompleteMeasurement env s).app.measurements.distance
        = s.app.measurements.distance ∧
      (handleCompleteMeasurement env s).app.error = s.app.error ∧
      (handleCompleteMeasurement env s).app.measurementMode = Mode.none ∧
      (s.app.measurementMode = Mode.none → handleCompleteMeasurement env s = s) := by
  have hi := (completeMeasurementIgnored_iff s.app.measurementMode s.split).2 h
  have hf := finalize_of_ignored env s hi
  refine ⟨completeMeasurement_of_ignored env _ _ hi, hf, ?_⟩
  unfold handleCompleteMeasurement
  rw [hf]
  by_cases hm : s.app.measurementMode = Mode.none
  · simp [setMeasurementMode, hm]
  · simp [setMeasurementMode, hm, modeEffect, pointsEffects, handleMeasurementModeChange,
      handlePreviewUpdate, handlePointsUpdate]

/-- C2 (witness): distance mode with a single point. -/
theorem finalize_below_minimum_witness :
    completeMeasurement sampleEnv Mode.distance (collecting Mode.distance [⟨0, 0⟩]).split
        = ((collecting Mode.distance [⟨0, 0⟩]).split, []) ∧
      handleDoubleClick sampleEnv (collecting Mode.distance [⟨0, 0⟩])
        = collecting Mode.distance [⟨0, 0⟩] :=
  have h := finalize_below_minimum sampleEnv (collecting Mode.distance [⟨0, 0⟩])
    (Or.inr (Or.inr ⟨rfl, by decide⟩))
  ⟨h.1, h.2.1⟩

theorem dispatch_split (c : Call) (s : Sys) : (dispatch c s).split = s.split := by
  cases c <;> simp [dispatch, handleAreaMeasured_begin, handleDistanceMeasured_begin]

theorem dispatch_mode (c : Call) (s : Sys) :
    (dispatch c s).app.measurementMode = s.app.measurementMode := by
  cases c with
  | onAreaMeasured g => simp [dispatch, handleAreaMeasured_begin]
  | onDistanceMeasured g => simp [dispatch, handleDistanceMeasured_begin]
  | onMeasurementUpdate key value => cases key <;> simp [dispatch, handleMeasurementUpdate]

theorem foldl_dispatch_split (cs : List Call) (s : Sys) :
    (cs.foldl (fun acc c => dispatch c acc) s).split = s.split := by
  induction cs generalizing s with
  | nil => rfl
  | cons c cs ih => simp [List.foldl, ih, dispatch_split]

theorem foldl_dispatch_mode (cs : List Call) (s : Sys) :
    (cs.foldl (fun acc c => dispatch c acc) s).app.measurementMode = s.app.measurementMode := by
  induction cs generalizing s with
  | nil => rfl
  | cons c cs ih => simp [List.foldl, ih, dispatch_mode]

theorem finalize_mode (env : Env) (s : Sys) :
    (finalize env s).app.measurementMode = s.app.measurementMode := by
  unfold finalize
  split <;>
    simp [runCompleteMeasurement, pointsEffects, handlePreviewUpdate, handlePointsUpdate,
      foldl_dispatch_mode]

theorem runCompleteMeasurement_split (env : Env) (s : Sys) :
    (runCompleteMeasurement env s).split
      = (completeMeasurement env s.app.measurementMode s.split).1 := by
  unfold runCompleteMeasurement
  rw [foldl_dispatch_split]

theorem finalize_points (env : Env) (s : Sys)
    (h : completeMeasurementIgnored s.app.measurementMode s.split = false) :
    (finalize env s).split.measurementPoints = [] := by
  have h1 : (finalize env s).split.measurementPoints
      = (runCompleteMeasurement env s).split.measurementPoints := by
    simp [finalize, h, pointsEffects]
  rw [h1, runCompleteMeasurement_split]
  simp [completeMeasurement, h]

theorem handleAreaMeasured_resume_mode (env : Env) (g : Geometry) (r : FetchResult)
    (a : AppState) :
    (handleAreaMeasured_resume env g r a).1.measurementMode = a.measurementMode := by
  unfold handleAreaMeasured_resume
  cases backendArea env r with
  | some v => rfl
  | none => cases fallbackArea env g <;> rfl

theorem handleDistanceMeasured_resume_mode (env : Env) (g : Geometry) (r : FetchResult)
    (a : AppState) :
    (handleDistanceMeasured_resume env g r a).1.measurementMode = a.measurementMode := by
  unfold handleDistanceMeasured_resume
  cases backendDistance env r with
  | some v => rfl
  | none => cases fallbackDistance env g <;> rfl

theorem receiveResponse_split (env : Env) (i : Nat) (r : FetchResult) (s : Sys) :
    (receiveResponse env i r s).split = s.split := by
  unfold receiveResponse
  cases s.pending[i]? with
  | none => rfl
  | some p => cases p with
    | mk key g => cases key <;> rfl

theorem receiveResponse_mode (env : Env) (i : Nat) (r : FetchResult) (s : Sys) :
    (receiveResponse env i r s).app.measurementMode = s.app.measurementMode := by
  unfold receiveResponse
  cases s.pending[i]? with
  | none => rfl
  | some p => cases p with
    | mk key g =>
      cases key
      · exact handleAreaMeasured_resume_mode env g r s.app
      · exact handleDistanceMeasured_resume_mode env g r s.app

theorem run_responses (env : Env) (rs : List (Nat × FetchResult)) (s : Sys) :
    (run env s (responseSteps rs)).split = s.split ∧
      (run env s (responseSteps rs)).app.measurementMode = s.app.measurementMode := by
  induction rs generalizing s with
  | nil => exact ⟨rfl, rfl⟩
  | cons x rs ih =>
    have h := ih (receiveResponse env x.1 x.2 s)
    simp only [run, responseSteps, List.map, List.foldl, step] at h ⊢
    rw [h.1, h.2, receiveResponse_split, receiveResponse_mode]
    exact ⟨rfl, rfl⟩

theorem not_ignored_of_minimum (mode : Mode) (s : SplitState)
    (h : (mode = Mode.area ∧ 3 ≤ s.measurementPoints.length) ∨
      (mode = Mode.distance ∧ 2 ≤ s.measurementPoints.length)) :
    completeMeasurementIgnored mode s = false := by
  rcases h with ⟨hm, hl⟩ | ⟨hm, hl⟩ <;> subst hm <;> simp [completeMeasurementIgnored] <;> omega

/-- C3 (counterexample): a double-click on three points in area mode, after
which both requests fail and the fallback finds area zero, reports the error
but does not keep the points: they are empty, not the three collected. -/
theorem failedFinalize_loses_points :
    fallbackArea flatEnv triangleGeometry = none ∧
      failedFinalize.app.error = some areaFailedMessage ∧
      failedFinalize.split.measurementPoints = [] ∧
      failedFinalize.split.measurementPoints ≠ (collecting Mode.area triangle).split.measurementPoints
      := by
  have h : failedFinalize.split.measurementPoints = [] := by
    have h0 := finalize_points flatEnv (collecting Mode.area triangle) (by decide)
    simpa [failedFinalize, run, step, handleDoubleClick, receiveResponse_split] using h0
  refine ⟨?_, ?_, h, ?_⟩
  · simp [fallbackArea, fallbackTotalArea, triangleGeometry, flatEnv, toLatLngs,
      JsNum.divConst, acceptPositive, JsNum.gtZero]
  · simp [failedFinalize, run, step, handleDoubleClick, finalize, completeMeasurementIgnored,
      collecting, triangle, runCompleteMeasurement, pointsEffects, completeMeasurement,
      dispatch, handleAreaMeasured_begin, handleMeasurementUpdate, handlePreviewUpdate,
      handlePointsUpdate, receiveResponse, previewEffect, handleAreaMeasured_resume, backendArea, measureArea,
      fallbackArea, fallbackTotalArea, flatEnv, toLatLngs, JsNum.divConst, acceptPositive,
      JsNum.gtZero, closeRing, toCoordinates]
  · rw [h]
    simp [collecting, triangle]

/-- C3 (amended): after a Finalize from a state that meets the minimum of the
mode, and whatever responses arrive afterwards (in particular when the remote
computation fails and the fallback yields zero or an invalid number), the
collected points are empty: `completeMeasurement` empties them before any
response arrives and no response restores them. The mode is the one before
the Finalize when a double-click triggers it, and `'none'` when the complete
command does. -/
theorem finalize_empties_points (env : Env) (s : Sys) (rs : List (Nat × FetchResult))
    (h : (s.app.measurementMode = Mode.area ∧ 3 ≤ s.split.measurementPoints.length) ∨
      (s.app.measurementMode = Mode.distance ∧ 2 ≤ s.split.measurementPoints.length)) :
    (run env (handleDoubleClick env s) (responseSteps rs)).split.measurementPoints = [] ∧
      (run env (handleDoubleClick env s) (responseSteps rs)).app.measurementMode
        = s.app.measurementMode ∧
      (run env (handleCompleteMeasurement env s) (responseSteps rs)).split.measurementPoints
        = [] ∧
      (run env (handleCompleteMeasurement env s) (responseSteps rs)).app.measurementMode
        = Mode.none := by
  have hi := not_ignored_of_minimum _ _ h
  have hne : s.app.measurementMode ≠ Mode.none := by
    rcases h with ⟨hm, _⟩ | ⟨hm, _⟩ <;> simp [hm]
  have h1 := run_responses env rs (handleDoubleClick env s)
  have h2 := run_responses env rs (handleCompleteMeasurement env s)
  rw [h1.1, h1.2, h2.1, h2.2]
  refine ⟨finalize_points env s hi, finalize_mode env s, ?_, ?_⟩
  · simp [handleCompleteMeasurement, setMeasurementMode, finalize_mode, hne, modeEffect,
      pointsEffects]
  · simp [handleCompleteMeasurement, setMeasurementMode, finalize_mode, hne, modeEffect,
      pointsEffects, handleMeasurementModeChange, handlePreviewUpdate, handlePointsUpdate]

/-- C3 (witness): three points in area mode, both requests failing. -/
theorem finalize_empties_points_witness :
    (run flatEnv (handleDoubleClick flatEnv (collecting Mode.area triangle))
        (responseSteps [(0, FetchResult.networkError), (0, FetchResult.networkError)])
      ).split.measurementPoints = [] ∧
    (run flatEnv (handleDoubleClick flatEnv (collecting Mode.area triangle))
        (responseSteps [(0, FetchResult.networkError), (0, FetchResult.networkError)])
      ).app.measurementMode = Mode.area :=
  have h := finalize_empties_points flatEnv (collecting Mode.area triangle)
    [(0, FetchResult.networkError), (0, FetchResult.networkError)]
    (Or.inl ⟨rfl, by decide⟩)
  ⟨h.1, h.2.1⟩

/-- C4 (evaluation at the failing input): after a double-click on three
points in area mode whose two requests both succeed, the points are empty,
the preview is zero and the result is stored, but the mode is still `'area'`:
nothing on this path sets it to `'none'`. -/
theorem succeededFinalize_keeps_mode :
    succeededFinalize.app.measurementMode = Mode.area ∧
      succeededFinalize.split.measurementPoints = [] ∧
      succeededFinalize.split.previewMeasurement = { value := JsNum.fin 0, unit := "" } ∧
      succeededFinalize.split.isMeasuringRef = false ∧
      succeededFinalize.app.measurements.area = JsNum.fin (3 / 2) ∧
      succeededFinalize.pending = [] := by
  simp [succeededFinalize, run, step, handleDoubleClick, finalize, completeMeasurementIgnored,
    collecting, triangle, runCompleteMeasurement, pointsEffects, completeMeasurement,
    dispatch, handleAreaMeasured_begin, handleMeasurementUpdate, handlePreviewUpdate,
    handlePointsUpdate, receiveResponse, previewEffect, handleAreaMeasured_resume, backendArea, measureArea,
    areaResponse, jsIsNaN, toNumber, JsNum.isNaN, jsParseFloat, closeRing, toCoordinates]

/-! ## The handlers of the results -/

theorem gtZero_divConst (x : JsNum) (c : ℚ) (hc : 0 < c) (h : x.gtZero = true) :
    (x.divConst c).gtZero = true := by
  cases x with
  | fin a =>
    simp only [JsNum.gtZero, JsNum.divConst, decide_eq_true_eq] at h ⊢
    exact div_pos h hc
  | nan => simp [JsNum.gtZero] at h
  | posInf => rfl
  | negInf => simp [JsNum.gtZero] at h

theorem acceptPositive_of_gtZero (x : JsNum) (h : x.gtZero = true) :
    acceptPositive x = some x := by
  cases x <;> simp_all [acceptPositive, JsNum.gtZero, JsNum.isNaN]

/-- C5: for a geometry that has a type and coordinates, when the request
resolves with a body whose `area` is a number other than `NaN`,
`handleAreaMeasured` stores exactly that number as `measurements.area`, sets
`measurements.points` to 0 and leaves `measurements.distance` and the error as
they were; the only event is the request, so the local computation does not
run. The same holds for `handleDistanceMeasured` and the field `distance`. -/
theorem backend_value_is_stored (env : Env) (g : Geometry) (a : AppState) (x : JsNum)
    (other : JsValue) (hx : x ≠ JsNum.nan) :
    handleAreaMeasured env
        (FetchResult.response true (some (Json.truthy (JsValue.num x) other)))
        (GeometryArg.valid g) a
      = ({ a with
            measurements := { area := x, distance := a.measurements.distance, points := 0 } },
          [Event.fetchMeasureArea g]) ∧
    handleDistanceMeasured env
        (FetchResult.response true (some (Json.truthy other (JsValue.num x))))
        (GeometryArg.valid g) a
      = ({ a with
            measurements := { area := a.measurements.area, distance := x, points := 0 } },
          [Event.fetchMeasureDistance g]) := by
  have hn : x.isNaN = false := by
    cases x <;> simp_all [JsNum.isNaN]
  constructor
  · simp [handleAreaMeasured, handleAreaMeasured_begin, handleAreaMeasured_resume, backendArea,
      measureArea, jsIsNaN, toNumber, hn, jsParseFloat]
  · simp [handleDistanceMeasured, handleDistanceMeasured_begin, handleDistanceMeasured_resume,
      backendDistance, measureDistance, jsIsNaN, toNumber, hn, jsParseFloat]

/-- C5 (witness): the body carries the value 3/2. -/
theorem backend_value_is_stored_witness :
    (handleAreaMeasured sampleEnv (areaResponse (JsValue.num (JsNum.fin (3 / 2))))
        (GeometryArg.valid triangleGeometry) (collecting Mode.area triangle).app).1.measurements
      = { area := JsNum.fin (3 / 2), distance := JsNum.fin 0, points := 0 } := by
  have h := (backend_value_is_stored sampleEnv triangleGeometry
    (collecting Mode.area triangle).app (JsNum.fin (3 / 2)) JsValue.undefined (by simp)).1
  simp only [areaResponse]
  rw [h]
  rfl

/-- C6: for a Polygon whose exterior ring has at least 3 coordinates and a
positive local geodesic area, when the remote call fails (network error,
non-2xx response, body that is not JSON) or resolves with an `area` that is
undefined or `NaN`, `handleAreaMeasured` stores `geodesicArea(ring) / 1000000`
as `measurements.area` and leaves the error as it was. -/
theorem fallback_area_is_stored (env : Env) (coords : List Position)
    (holes : List (List Position)) (r : FetchResult) (a : AppState)
    (hlen : 3 ≤ coords.length)
    (hpos : (env.geodesicArea (toLatLngs coords)).gtZero = true)
    (hr : r = FetchResult.networkError ∨ (∃ j, r = FetchResult.response false j) ∨
      r = FetchResult.response true none ∨
      (∃ d, r = FetchResult.response true (some (Json.truthy JsValue.undefined d))) ∨
      (∃ d, r = FetchResult.response true (some (Json.truthy (JsValue.num JsNum.nan) d)))) :
    handleAreaMeasured env r (GeometryArg.valid (Geometry.Polygon (coords :: holes))) a
      = ({ a with
            measurements :=
              { area := (env.geodesicArea (toLatLngs coords)).divConst 1000000
                distance := a.measurements.distance
                points := 0 } },
          [Event.fetchMeasureArea (Geometry.Polygon (coords :: holes)), Event.fallback]) := by
  have hb : backendArea env r = none := by
    rcases hr with h | ⟨j, h⟩ | h | ⟨d, h⟩ | ⟨d, h⟩ <;> subst h <;>
      simp [backendArea, measureArea, jsIsNaN, toNumber, JsNum.isNaN]
  have hf : fallbackArea env (Geometry.Polygon (coords :: holes))
      = some ((env.geodesicArea (toLatLngs coords)).divConst 1000000) := by
    have hl : ¬ coords.length < 3 := by omega
    simp [fallbackArea, fallbackTotalArea, hl,
      acceptPositive_of_gtZero _ (gtZero_divConst _ 1000000 (by norm_num) hpos)]
  simp [handleAreaMeasured, handleAreaMeasured_begin, handleAreaMeasured_resume, hb, hf]

/-- C6 (witness): a closed triangle, the backend answering with a non-2xx
status. -/
theorem fallback_area_is_stored_witness :
    (handleAreaMeasured sampleEnv (FetchResult.response false none)
        (GeometryArg.valid triangleGeometry) (collecting Mode.area triangle).app).1.measurements.area
      = JsNum.fin 8 := by
  have h := fallback_area_is_stored sampleEnv [(0, 0), (1, 0), (0, 1), (0, 0)] []
    (FetchResult.response false none) (collecting Mode.area triangle).app (by decide)
    (by simp [sampleEnv, toLatLngs, JsNum.gtZero]) (Or.inr (Or.inl ⟨none, rfl⟩))
  simp only [triangleGeometry]
  rw [h]
  simp [sampleEnv, toLatLngs, JsNum.divConst]
  norm_num

/-- C7: when the remote call fails and the local fallback finds an unsupported
geometry type, too few coordinates, zero or `NaN`, `handleAreaMeasured` and
`handleDistanceMeasured` set their error message and change nothing else: the
stored area, distance and point count are those before the call. -/
theorem fallback_failure_keeps_measurements (env : Env) (gA gD : Geometry) (r : FetchResult)
    (a : AppState)
    (hr : r = FetchResult.networkError ∨ (∃ j, r = FetchResult.response false j) ∨
      r = FetchResult.response true none)
    (hA : ((∀ cs, gA ≠ Geometry.Polygon cs) ∧ (∀ ps, gA ≠ Geometry.MultiPolygon ps)) ∨
      (∃ coords holes, gA = Geometry.Polygon (coords :: holes) ∧ coords.length < 3) ∨
      (∃ t, fallbackTotalArea env gA = some t ∧ (t = JsNum.fin 0 ∨ t = JsNum.nan)))
    (hD : ((∀ cs, gD ≠ Geometry.LineString cs) ∧ (∀ ls, gD ≠ Geometry.MultiLineString ls)) ∨
      (∃ coords, gD = Geometry.LineString coords ∧ coords.length < 2) ∨
      (∃ t, fallbackTotalDistance env gD = some t ∧ (t = JsNum.fin 0 ∨ t = JsNum.nan))) :
    (handleAreaMeasured env r (GeometryArg.valid gA) a).1
        = { a with error := some areaFailedMessage } ∧
      (handleDistanceMeasured env r (GeometryArg.valid gD) a).1
        = { a with error := some distanceFailedMessage } := by
  have hbA : backendArea env r = none := by
    rcases hr with h | ⟨j, h⟩ | h <;> subst h <;> simp [backendArea, measureArea]
  have hbD : backendDistance env r = none := by
    rcases hr with h | ⟨j, h⟩ | h <;> subst h <;> simp [backendDistance, measureDistance]
  have hfA : fallbackArea env gA = none := by
    rcases hA with ⟨h1, h2⟩ | ⟨coords, holes, hg, hl⟩ | ⟨t, ht, h0 | h0⟩
    · cases gA with
      | Polygon cs => exact absurd rfl (h1 cs)
      | MultiPolygon ps => exact absurd rfl (h2 ps)
      | LineString cs => simp [fallbackArea, fallbackTotalArea]
      | MultiLineString ls => simp [fallbackArea, fallbackTotalArea]
      | Other t => simp [fallbackArea, fallbackTotalArea]
    · subst hg
      simp [fallbackArea, fallbackTotalArea, hl]
    · subst h0
      simp [fallbackArea, ht, acceptPositive, JsNum.gtZero]
    · subst h0
      simp [fallbackArea, ht, acceptPositive, JsNum.gtZero]
  have hfD : fallbackDistance env gD = none := by
    rcases hD with ⟨h1, h2⟩ | ⟨coords, hg, hl⟩ | ⟨t, ht, h0 | h0⟩
    · cases gD with
      | Polygon cs => simp [fallbackDistance, fallbackTotalDistance]
      | MultiPolygon ps => simp [fallbackDistance, fallbackTotalDistance]
      | LineString cs => exact absurd rfl (h1 cs)
      | MultiLineString ls => exact absurd rfl (h2 ls)
      | Other t => simp [fallbackDistance, fallbackTotalDistance]
    · subst hg
      simp [fallbackDistance, fallbackTotalDistance, hl]
    · subst h0
      simp [fallbackDistance, ht, acceptPositive, JsNum.gtZero, JsNum.divConst]
    · subst h0
      simp [fallbackDistance, ht, acceptPositive, JsNum.gtZero, JsNum.divConst]
  constructor
  · simp [handleAreaMeasured, handleAreaMeasured_begin, handleAreaMeasured_resume, hbA, hfA]
  · simp [handleDistanceMeasured, handleDistanceMeasured_begin, handleDistanceMeasured_resume,
      hbD, hfD]

/-- C7 (witness): a network error, a polygon with a ring of two coordinates
for the area, and a line of zero length for the distance. -/
theorem fallback_failure_keeps_measurements_witness :
    (handleAreaMeasured flatEnv FetchResult.networkError (GeometryArg.valid shortPolygon)
        (collecting Mode.area segment).app).1
        = { (collecting Mode.area segment).app with error := some areaFailedMessage } ∧
      (handleDistanceMeasured flatEnv FetchResult.networkError
        (GeometryArg.valid (Geometry.LineString [(0, 0), (1, 1)]))
        (collecting Mode.area segment).app).1
        = { (collecting Mode.area segment).app with error := some distanceFailedMessage } :=
  fallback_failure_keeps_measurements flatEnv shortPolygon
    (Geometry.LineString [(0, 0), (1, 1)]) FetchResult.networkError
    (collecting Mode.area segment).app (Or.inl rfl)
    (Or.inr (Or.inl ⟨[(0, 0), (1, 1)], [], rfl, by decide⟩))
    (Or.inr (Or.inr ⟨JsNum.fin 0, by
      simp [fallbackTotalDistance, sumDistancesBack, toLatLngs, flatEnv, JsNum.add], Or.inl rfl⟩))

/-- C8 (evaluation at the failing inputs): a body `\x7b"area": null\x7d` passes
the test `!isNaN(result.area)` and `parseFloat` turns it into `NaN`, which
`handleAreaMeasured` stores; a body whose `area` is `Infinity` is stored as
`Infinity`; a body `\x7b"distance": true\x7d` makes `handleDistanceMeasured` store
`NaN`. None of the stored values is finite. -/
theorem non_finite_result_is_stored :
    (handleAreaMeasured sampleEnv (areaResponse JsValue.null)
        (GeometryArg.valid triangleGeometry) (collecting Mode.area triangle).app).1.measurements.area
        = JsNum.nan ∧
      (handleAreaMeasured sampleEnv (areaResponse (JsValue.num JsNum.posInf))
        (GeometryArg.valid triangleGeometry) (collecting Mode.area triangle).app).1.measurements.area
        = JsNum.posInf ∧
      (handleDistanceMeasured sampleEnv (distanceResponse (JsValue.bool true))
        (GeometryArg.valid (Geometry.LineString [(0, 0), (1, 1)]))
        (collecting Mode.distance segment).app).1.measurements.distance
        = JsNum.nan ∧
      JsNum.nan.isFinite = false ∧ JsNum.posInf.isFinite = false := by
  simp [handleAreaMeasured, handleAreaMeasured_begin, handleAreaMeasured_resume, backendArea,
    measureArea, areaResponse, jsIsNaN, toNumber, JsNum.isNaN, jsParseFloat,
    handleDistanceMeasured, handleDistanceMeasured_begin, handleDistanceMeasured_resume,
    backendDistance, measureDistance, distanceResponse, JsNum.isFinite]

/-- C9 (counterexample): for a Polygon whose ring has two coordinates, and for
a LineString, `handleAreaMeasured` sends the request: the geometry is on its
way to `/measure-area` before anything looks at its type or its ring. -/
theorem handleAreaMeasured_sends_invalid_geometry :
    handleAreaMeasured_begin (GeometryArg.valid shortPolygon) (collecting Mode.area segment).app
        = Sum.inr shortPolygon ∧
      Event.fetchMeasureArea shortPolygon ∈
        (handleAreaMeasured flatEnv FetchResult.networkError (GeometryArg.valid shortPolygon)
          (collecting Mode.area segment).app).2 ∧
      Event.fetchMeasureArea (Geometry.LineString [(0, 0), (1, 1)]) ∈
        (handleAreaMeasured flatEnv FetchResult.networkError
          (GeometryArg.valid (Geometry.LineString [(0, 0), (1, 1)]))
          (collecting Mode.area segment).app).2 := by
  simp [handleAreaMeasured, handleAreaMeasured_begin]

theorem handleAreaMeasured_resume_events (env : Env) (g : Geometry) (r : FetchResult)
    (a : AppState) :
    (handleAreaMeasured_resume env g r a).2 = [] ∨
      (handleAreaMeasured_resume env g r a).2 = [Event.fallback] := by
  unfold handleAreaMeasured_resume
  cases backendArea env r with
  | some v => exact Or.inl rfl
  | none => cases fallbackArea env g <;> exact Or.inr rfl

/-- C9 (amended): `handleAreaMeasured` sends no request exactly when its
argument is missing or has no type or no coordinates, and then it sets the
invalid-geometry message; every argument with a type and coordinates,
whatever the type and the length of the ring, is sent once to `/measure-area`
before any other check. -/
theorem handleAreaMeasured_request_iff (env : Env) (r : FetchResult) (arg : GeometryArg)
    (a : AppState) :
    ((∀ g, Event.fetchMeasureArea g ∉ (handleAreaMeasured env r arg a).2) ↔
        (arg = GeometryArg.missing ∨ arg = GeometryArg.noType ∨
          ∃ t, arg = GeometryArg.noCoordinates t)) ∧
      ((arg = GeometryArg.missing ∨ arg = GeometryArg.noType ∨
          ∃ t, arg = GeometryArg.noCoordinates t) →
        handleAreaMeasured env r arg a
          = ({ a with error := some invalidGeometryMessage }, [])) ∧
      (∀ g, arg = GeometryArg.valid g →
        (handleAreaMeasured env r arg a).2.count (Event.fetchMeasureArea g) = 1) := by
  cases arg with
  | missing => simp [handleAreaMeasured, handleAreaMeasured_begin]
  | noType => simp [handleAreaMeasured, handleAreaMeasured_begin]
  | noCoordinates t => simp [handleAreaMeasured, handleAreaMeasured_begin]
  | valid g =>
    have hev := handleAreaMeasured_resume_events env g r a
    have hrun : (handleAreaMeasured env r (GeometryArg.valid g) a).2
        = Event.fetchMeasureArea g :: (handleAreaMeasured_resume env g r a).2 := by
      simp [handleAreaMeasured, handleAreaMeasured_begin]
    refine ⟨⟨fun h => ?_, fun h => ?_⟩, fun h => ?_, fun g1 hg => ?_⟩
    · exact absurd (by rw [hrun]; exact List.mem_cons_self _ _) (h g)
    · rcases h with h | h | ⟨t, h⟩ <;> cases h
    · rcases h with h | h | ⟨t, h⟩ <;> cases h
    · cases hg
      rw [hrun]
      rcases hev with h | h <;> rw [h] <;> simp

/-- C9 (witness): the three rejected arguments send nothing, and a polygon
with a short ring is sent once. -/
theorem handleAreaMeasured_request_iff_witness :
    handleAreaMeasured flatEnv FetchResult.networkError GeometryArg.missing
        (collecting Mode.area segment).app
        = ({ (collecting Mode.area segment).app with error := some invalidGeometryMessage }, []) ∧
      (handleAreaMeasured flatEnv FetchResult.networkError (GeometryArg.valid shortPolygon)
        (collecting Mode.area segment).app).2.count (Event.fetchMeasureArea shortPolygon) = 1 :=
  ⟨(handleAreaMeasured_request_iff flatEnv FetchResult.networkError GeometryArg.missing
      (collecting Mode.area segment).app).2.1 (Or.inl rfl),
    (handleAreaMeasured_request_iff flatEnv FetchResult.networkError
      (GeometryArg.valid shortPolygon) (collecting Mode.area segment).app).2.2 shortPolygon rfl⟩

/-! ## Responses that arrive late -/

theorem clearMeasurements_pending (env : Env) (s : Sys) :
    (clearMeasurements env s).pending = s.pending := by
  unfold clearMeasurements
  split <;> simp [modeEffect, pointsEffects, previewEffect]

theorem clearMeasurements_measurements (env : Env) (s : Sys) :
    (clearMeasurements env s).app.measurements
      = { area := JsNum.fin 0, distance := JsNum.fin 0, points := 0 } := by
  unfold clearMeasurements
  split <;>
    simp [modeEffect, pointsEffects, previewEffect, handleClearMeasurements,
      handlePreviewUpdate, handlePointsUpdate]

theorem setMeasurementMode_pending (env : Env) (mode : Mode) (s : Sys) :
    (setMeasurementMode env mode s).pending = s.pending := by
  unfold setMeasurementMode
  split <;> simp [modeEffect, pointsEffects]

theorem receiveResponse_area (env : Env) (i : Nat) (g : Geometry) (x : JsNum) (d : JsValue)
    (s : Sys) (hp : s.pending[i]? = some ⟨MeasurementKey.area, g⟩) (hx : x ≠ JsNum.nan) :
    (receiveResponse env i
        (FetchResult.response true (some (Json.truthy (JsValue.num x) d))) s).app.measurements
      = { s.app.measurements with area := x, points := 0 } := by
  have hn : x.isNaN = false := by
    cases x <;> simp_all [JsNum.isNaN]
  simp [receiveResponse, previewEffect, handlePreviewUpdate, hp, handleAreaMeasured_resume, backendArea, measureArea, jsIsNaN,
    toNumber, hn, jsParseFloat]

/-- C10 (counterexample): the clear command is given while the two requests
of a Finalize are in flight, so that the stored measurements are all zero and
the mode is `'none'`; the response that arrives afterwards with the area 5/2
is stored all the same. -/
theorem stale_response_changes_measurements :
    clearedInFlight.app.measurementMode = Mode.none ∧
      clearedInFlight.app.measurements
        = { area := JsNum.fin 0, distance := JsNum.fin 0, points := 0 } ∧
      clearedInFlight.pending[0]? = some ⟨MeasurementKey.area, triangleGeometry⟩ ∧
      (step sampleEnv clearedInFlight
          (Step.response 0 (areaResponse (JsValue.num (JsNum.fin (5 / 2)))))).app.measurements
        = { area := JsNum.fin (5 / 2), distance := JsNum.fin 0, points := 0 } ∧
      (step sampleEnv clearedInFlight
          (Step.response 0 (areaResponse (JsValue.num (JsNum.fin (5 / 2)))))).app.measurements
        ≠ clearedInFlight.app.measurements := by
  have hc : clearedInFlight =
      { app := { measurementMode := Mode.none
                 measurements := { area := JsNum.fin 0, distance := JsNum.fin 0, points := 0 }
                 previewMeasurement := { value := JsNum.fin 0, unit := "" }
                 error := none }
        split := { measurementPoints := []
                   previewMeasurement := { value := JsNum.fin 0, unit := "" }
                   isMeasuringRef := false }
        pending := [⟨MeasurementKey.area, triangleGeometry⟩,
          ⟨MeasurementKey.area, triangleGeometry⟩] } := by
    simp [clearedInFlight, run, step, handleDoubleClick, finalize, completeMeasurementIgnored,
      collecting, triangle, runCompleteMeasurement, pointsEffects, completeMeasurement,
      dispatch, handleAreaMeasured_begin, handleMeasurementUpdate, handlePreviewUpdate,
      handlePointsUpdate, clearMeasurements, handleClearMeasurements, modeEffect, previewEffect, closeRing,
      toCoordinates, triangleGeometry]
  rw [hc]
  simp [step, receiveResponse, previewEffect, handlePreviewUpdate, handleAreaMeasured_resume, backendArea, measureArea,
    areaResponse, jsIsNaN, toNumber, JsNum.isNaN, jsParseFloat]

/-- C10 (amended): the arrival of a response is applied whatever happened
since its request was sent. When the clear command, or a change of mode, comes
between the request for an area and a response that carries a number other
than `NaN`, that number is stored as `measurements.area` on arrival and
`measurements.points` is set to 0; after a clear the stored measurements are
then that area with distance 0 and 0 points. -/
theorem stale_response_is_applied (env : Env) (s : Sys) (i : Nat) (g : Geometry) (x : JsNum)
    (d : JsValue) (mode : Mode)
    (hp : s.pending[i]? = some ⟨MeasurementKey.area, g⟩) (hx : x ≠ JsNum.nan) :
    (run env s [Step.clear,
        Step.response i (FetchResult.response true (some (Json.truthy (JsValue.num x) d)))]
      ).app.measurements = { area := x, distance := JsNum.fin 0, points := 0 } ∧
    (run env s [Step.setMode mode,
        Step.response i (FetchResult.response true (some (Json.truthy (JsValue.num x) d)))]
      ).app.measurements
      = { (step env s (Step.setMode mode)).app.measurements with area := x, points := 0 } := by
  constructor
  · have h := receiveResponse_area env i g x d (clearMeasurements env s)
      (by rw [clearMeasurements_pending]; exact hp) hx
    simp only [run, List.foldl, step]
    rw [h, clearMeasurements_measurements]
  · have h := receiveResponse_area env i g x d (setMeasurementMode env mode s)
      (by rw [setMeasurementMode_pending]; exact hp) hx
    simp only [run, List.foldl, step]
    rw [h]

/-- C10 (witness): the run of the counterexample. -/
theorem stale_response_is_applied_witness :
    (run sampleEnv (finalize sampleEnv (collecting Mode.area triangle))
        [Step.clear,
          Step.response 0 (FetchResult.response true
            (some (Json.truthy (JsValue.num (JsNum.fin (5 / 2))) JsValue.undefined)))]
      ).app.measurements = { area := JsNum.fin (5 / 2), distance := JsNum.fin 0, points := 0 } :=
  (stale_response_is_applied sampleEnv (finalize sampleEnv (collecting Mode.area triangle)) 0
    triangleGeometry (JsNum.fin (5 / 2)) JsValue.undefined Mode.none
    (by
      simp [finalize, completeMeasurementIgnored, collecting, triangle, runCompleteMeasurement,
        pointsEffects, completeMeasurement, dispatch, handleAreaMeasured_begin,
        handleMeasurementUpdate, handlePreviewUpdate, handlePointsUpdate, closeRing,
        toCoordinates, triangleGeometry])
    (by simp)).1

/-! ## The geometry handed to the backend -/

theorem completeMeasurement_area_calls (env : Env) (s : SplitState)
    (h : 3 ≤ s.measurementPoints.length) :
    (completeMeasurement env Mode.area s).2 =
      [Call.onAreaMeasured (Geometry.Polygon [closeRing (toCoordinates s.measurementPoints)]),
        Call.onMeasurementUpdate MeasurementKey.area
          ((env.geodesicArea (s.measurementPoints.map fun p => LatLng.mk p.lat p.lng)).divConst
            1000000),
        Call.onAreaMeasured (Geometry.Polygon [closeRing (toCoordinates s.measurementPoints)])] := by
  have hi : completeMeasurementIgnored Mode.area s = false := by
    simp [completeMeasurementIgnored]
    omega
  simp [completeMeasurement, hi]

theorem completeMeasurement_distance_calls (env : Env) (s : SplitState)
    (h : 2 ≤ s.measurementPoints.length) :
    (completeMeasurement env Mode.distance s).2 =
      [Call.onDistanceMeasured (Geometry.LineString (toCoordinates s.measurementPoints)),
        Call.onMeasurementUpdate MeasurementKey.distance
          ((sumDistances env (JsNum.fin 0) s.measurementPoints).divConst 1000),
        Call.onDistanceMeasured (Geometry.LineString (toCoordinates s.measurementPoints))] := by
  have hi : completeMeasurementIgnored Mode.distance s = false := by
    simp [completeMeasurementIgnored]
    omega
  simp [completeMeasurement, hi]

/-- C11: for N >= 3 points in area mode, every geometry that
`completeMeasurement` hands to `onAreaMeasured` is the Polygon of one ring;
that ring has N + 1 coordinates, its first N coordinates are the points in
input order, each as `[lng, lat]`, and its last coordinate equals its first. -/
theorem area_geometry_is_closed_ring (env : Env) (s : SplitState)
    (h : 3 ≤ s.measurementPoints.length) :
    ∃ ring : List Position,
      (∀ g, Call.onAreaMeasured g ∈ (completeMeasurement env Mode.area s).2 ↔
        g = Geometry.Polygon [ring]) ∧
      ring.length = s.measurementPoints.length + 1 ∧
      ring.take s.measurementPoints.length
        = s.measurementPoints.map (fun p => (p.lng, p.lat)) ∧
      ring.getLast? = ring.head? ∧ ring.head? ≠ none := by
  refine ⟨closeRing (toCoordinates s.measurementPoints), ?_, ?_, ?_, ?_⟩
  · intro g
    rw [completeMeasurement_area_calls env s h]
    simp
  · cases hp : s.measurementPoints with
    | nil => simp [hp] at h
    | cons p rest => simp [closeRing, toCoordinates]
  · simp [closeRing, toCoordinates]
  · cases hp : s.measurementPoints with
    | nil => simp [hp] at h
    | cons p rest =>
      simp only [closeRing, toCoordinates, List.map_cons, List.take_succ_cons, List.take_zero,
        List.head?_cons, List.cons_append]
      rw [← List.cons_append, List.getLast?_append]
      simp

/-- C11 (witness): the ring built from three points. -/
theorem area_geometry_is_closed_ring_witness :
    ∃ ring : List Position,
      (∀ g, Call.onAreaMeasured g ∈
          (completeMeasurement sampleEnv Mode.area (collecting Mode.area triangle).split).2 ↔
        g = Geometry.Polygon [ring]) ∧
      ring.length = 3 + 1 ∧
      ring.take 3 = triangle.map (fun p => (p.lng, p.lat)) ∧
      ring.getLast? = ring.head? ∧ ring.head? ≠ none :=
  area_geometry_is_closed_ring sampleEnv (collecting Mode.area triangle).split (by decide)

/-- C12: for N >= 2 points in distance mode, every geometry that
`completeMeasurement` hands to `onDistanceMeasured` is the LineString whose
coordinates are exactly the N points in input order, the i-th being
`[points[i].lng, points[i].lat]`; nothing is appended, so the line is open. -/
theorem distance_geometry_is_open_line (env : Env) (s : SplitState)
    (h : 2 ≤ s.measurementPoints.length) :
    ∃ coordinates : List Position,
      (∀ g, Call.onDistanceMeasured g ∈ (completeMeasurement env Mode.distance s).2 ↔
        g = Geometry.LineString coordinates) ∧
      coordinates.length = s.measurementPoints.length ∧
      ∀ i : Nat, coordinates[i]?
        = (s.measurementPoints[i]?).map (fun p : LatLng => (p.lng, p.lat)) := by
  refine ⟨toCoordinates s.measurementPoints, ?_, ?_, ?_⟩
  · intro g
    rw [completeMeasurement_distance_calls env s h]
    simp
  · simp [toCoordinates]
  · intro i
    simp [toCoordinates]

/-- C12 (witness): the line built from two points. -/
theorem distance_geometry_is_open_line_witness :
    ∃ coordinates : List Position,
      (∀ g, Call.onDistanceMeasured g ∈
          (completeMeasurement sampleEnv Mode.distance (collecting Mode.distance segment).split).2
        ↔ g = Geometry.LineString coordinates) ∧
      coordinates.length = 2 ∧
      ∀ i : Nat, coordinates[i]? = (segment[i]?).map (fun p : LatLng => (p.lng, p.lat)) :=
  distance_geometry_is_open_line sampleEnv (collecting Mode.distance segment).split (by decide)

/-! ## The closed ring and the open ring -/

theorem map_mk_eq (l : List LatLng) : (l.map fun p => LatLng.mk p.lat p.lng) = l := by
  induction l with
  | nil => rfl
  | cons p rest ih => simp

theorem toLatLngs_toCoordinates (l : List LatLng) : toLatLngs (toCoordinates l) = l := by
  induction l with
  | nil => rfl
  | cons p rest ih =>
    simp only [toLatLngs, toCoordinates, List.map_cons, List.map_map] at ih ⊢
    rw [ih]

theorem toLatLngs_closeRing (p : LatLng) (rest : List LatLng) :
    toLatLngs (closeRing (toCoordinates (p :: rest))) = (p :: rest) ++ [p] := by
  have h := toLatLngs_toCoordinates (p :: rest)
  simp only [toLatLngs, toCoordinates, closeRing, List.map_cons, List.map_append,
    List.take_succ_cons, List.take_zero, List.map_nil] at h ⊢
  rw [h]

theorem areaTerm_self (t : Trig) (p : LatLng) : areaTerm t p p = 0 := by
  simp [areaTerm]

theorem ringSum_closed (t : Trig) (p : LatLng) (rest : List LatLng) :
    ringSum t ((p :: rest) ++ [p]) = ringSum t (p :: rest) := by
  unfold ringSum
  have hlen : ((p :: rest) ++ [p]).length = (p :: rest).length + 1 := by simp
  rw [hlen, List.range_succ, List.map_append, List.sum_append]
  have hlast : areaTerm t (((p :: rest) ++ [p]).getD (p :: rest).length ⟨0, 0⟩)
      (((p :: rest) ++ [p]).getD (((p :: rest).length + 1) % ((p :: rest).length + 1)) ⟨0, 0⟩)
        = 0 := by
    rw [Nat.mod_self, List.getD_append_right _ _ _ _ (le_refl _)]
    simp [areaTerm_self]
  simp only [List.map_cons, List.map_nil, List.sum_cons, List.sum_nil, hlast, add_zero]
  congr 1
  apply List.map_congr_left
  intro i hi
  have hi1 : i < (p :: rest).length := List.mem_range.mp hi
  have hi2 : i + 1 < (p :: rest).length + 1 := by omega
  rw [List.getD_append _ _ _ _ hi1, Nat.mod_eq_of_lt hi2]
  by_cases hlt : i + 1 < (p :: rest).length
  · rw [List.getD_append _ _ _ _ hlt, Nat.mod_eq_of_lt hlt]
  · have he : i + 1 = (p :: rest).length := by omega
    rw [he, Nat.mod_self, List.getD_append_right _ _ _ _ (le_refl _)]
    simp

/-- C13: with `geodesicArea` the shoelace formula of Leaflet.draw over
consecutive vertex pairs with wrap-around, in exact arithmetic, the closed
ring built from N >= 3 points (the points followed by a copy of the first)
has the same area as the N points taken as an unclosed ring; hence the
fallback of `handleAreaMeasured` on the Polygon that `completeMeasurement`
builds finds the value that the preview computes from the points. -/
theorem closed_ring_area_eq_open_ring_area (t : Trig) (env : Env) (points : List LatLng)
    (h : 3 ≤ points.length) :
    leafletGeodesicArea t (toLatLngs (closeRing (toCoordinates points)))
        = leafletGeodesicArea t (points.map fun p => LatLng.mk p.lat p.lng) ∧
      fallbackTotalArea (withLeafletArea t env)
          (Geometry.Polygon [closeRing (toCoordinates points)])
        = some (calculatePreviewMeasurement (withLeafletArea t env) points Mode.area).value := by
  cases points with
  | nil => simp at h
  | cons p rest =>
    have hlen : 3 ≤ rest.length + 1 := by simpa using h
    have h1 : leafletGeodesicArea t (toLatLngs (closeRing (toCoordinates (p :: rest))))
        = leafletGeodesicArea t ((p :: rest).map fun p => LatLng.mk p.lat p.lng) := by
      rw [toLatLngs_closeRing, map_mk_eq]
      unfold leafletGeodesicArea
      rw [ringSum_closed]
      have ha : 2 < ((p :: rest) ++ [p]).length := by
        simp
        omega
      have hb : 2 < (p :: rest).length := by
        simp
        omega
      rw [if_pos ha, if_pos hb]
    refine ⟨h1, ?_⟩
    have hc : ¬ (closeRing (toCoordinates (p :: rest))).length < 3 := by
      simp [closeRing, toCoordinates]
      omega
    have hd : ¬ (p :: rest).length < 2 := by
      simp
      omega
    have he : 3 ≤ (p :: rest).length := by simpa using hlen
    simp only [fallbackTotalArea, hc, if_false, withLeafletArea, calculatePreviewMeasurement, hd,
      he, and_self, if_true]
    rw [h1]
    simp

/-- C13 (witness): a triangle. -/
theorem closed_ring_area_eq_open_ring_area_witness :
    leafletGeodesicArea sampleTrig (toLatLngs (closeRing (toCoordinates triangle)))
      = leafletGeodesicArea sampleTrig (triangle.map fun p => LatLng.mk p.lat p.lng) :=
  (closed_ring_area_eq_open_ring_area sampleTrig sampleEnv triangle (by decide)).1

/-! ## The preview -/

theorem JsNum.fin_zero_add (x : JsNum) : (JsNum.fin 0).add x = x := by
  cases x <;> simp [JsNum.add]

theorem JsNum.divConst_add (x y : JsNum) (c : ℚ) :
    (x.add y).divConst c = (x.divConst c).add (y.divConst c) := by
  cases x <;> cases y <;> simp [JsNum.add, JsNum.divConst, add_div]

theorem sumDistances_snoc (env : Env) (init : List LatLng) (p q : LatLng) (acc : JsNum) :
    sumDistances env acc (init ++ [p, q])
      = (sumDistances env acc (init ++ [p])).add (env.distanceTo p q) := by
  induction init generalizing acc with
  | nil => simp [sumDistances]
  | cons a rest ih =>
    cases rest with
    | nil => simp [sumDistances]
    | cons b r =>
      simp only [List.cons_append, sumDistances]
      exact ih (acc.add (env.distanceTo a b))

theorem consecutiveDistanceSum_snoc (env : Env) (init : List LatLng) (p q : LatLng) :
    consecutiveDistanceSum env (init ++ [p, q])
      = (consecutiveDistanceSum env (init ++ [p])).add (env.distanceTo p q) := by
  unfold consecutiveDistanceSum
  have h1 : (init ++ [p, q]).length - 1 = init.length + 1 := by simp
  have h2 : (init ++ [p]).length - 1 = init.length := by simp
  rw [h1, h2, List.range_succ, List.map_append, List.foldl_append]
  have hsplit : init ++ [p, q] = (init ++ [p]) ++ [q] := by simp
  have hlast : env.distanceTo ((init ++ [p, q]).getD init.length ⟨0, 0⟩)
      ((init ++ [p, q]).getD (init.length + 1) ⟨0, 0⟩) = env.distanceTo p q := by
    rw [List.getD_append_right _ _ _ _ (le_refl _),
      List.getD_append_right _ _ _ _ (Nat.le_succ _)]
    simp
  simp only [List.map_cons, List.map_nil, List.foldl_cons, List.foldl_nil, hlast]
  congr 2
  apply List.map_congr_left
  intro i hi
  have hi1 : i < init.length := List.mem_range.mp hi
  have ha : i < (init ++ [p]).length := by simp; omega
  have hb : i + 1 < (init ++ [p]).length := by simp; omega
  rw [hsplit, List.getD_append _ _ _ _ ha, List.getD_append _ _ _ _ hb]

theorem sumDistances_eq_consecutiveDistanceSum (env : Env) (points : List LatLng) :
    sumDistances env (JsNum.fin 0) points = consecutiveDistanceSum env points := by
  induction points using List.reverseRecOn with
  | nil => simp [sumDistances, consecutiveDistanceSum]
  | append_singleton l q ih =>
    rcases List.eq_nil_or_concat l with hl | ⟨init, p, hl⟩
    · subst hl
      simp [sumDistances, consecutiveDistanceSum]
    · rw [List.concat_eq_append] at hl
      subst hl
      have e : init ++ [p] ++ [q] = init ++ [p, q] := by simp
      rw [e, sumDistances_snoc, consecutiveDistanceSum_snoc, ih]

/-- C14: for n >= 2 points in distance mode, the preview value is the sum of
the pairwise distances of consecutive points, in metres, divided by 1000; and
appending a point `q` to a sequence that ends in `p` adds exactly
`d(p, q) / 1000` to the value (numbers are exact here: rounding is not
modelled). -/
theorem distance_preview_is_consecutive_sum (env : Env) (points : List LatLng)
    (h : 2 ≤ points.length) :
    (calculatePreviewMeasurement env points Mode.distance).value
        = (consecutiveDistanceSum env points).divConst 1000 ∧
      ∀ init p q, points = init ++ [p] →
        (calculatePreviewMeasurement env (points ++ [q]) Mode.distance).value
          = (calculatePreviewMeasurement env points Mode.distance).value.add
              ((env.distanceTo p q).divConst 1000) := by
  have hn : ¬ points.length < 2 := by omega
  refine ⟨?_, ?_⟩
  · simp [calculatePreviewMeasurement, hn, sumDistances_eq_consecutiveDistanceSum]
  · intro init p q hp
    have hn2 : ¬ (points ++ [q]).length < 2 := by simp; omega
    simp only [calculatePreviewMeasurement, hn, hn2, if_false, if_true]
    subst hp
    have e : init ++ [p] ++ [q] = init ++ [p, q] := by simp
    rw [e, sumDistances_snoc, JsNum.divConst_add]

/-- C14 (witness): two points, then a third. -/
theorem distance_preview_is_consecutive_sum_witness :
    (calculatePreviewMeasurement sampleEnv (segment ++ [⟨1, 0⟩]) Mode.distance).value
      = (calculatePreviewMeasurement sampleEnv segment Mode.distance).value.add
          ((sampleEnv.distanceTo ⟨0, 1⟩ ⟨1, 0⟩).divConst 1000) :=
  (distance_preview_is_consecutive_sum sampleEnv segment (by decide)).2
    [⟨0, 0⟩] ⟨0, 1⟩ ⟨1, 0⟩ rfl

/-- C15: below the minimum size of the mode (fewer than 2 points in distance
mode, fewer than 3 points in area mode) the value that
`calculatePreviewMeasurement` computes is exactly 0. -/
theorem preview_below_minimum_is_zero (env : Env) (points : List LatLng) (mode : Mode)
    (h : (mode = Mode.distance ∧ points.length < 2) ∨
      (mode = Mode.area ∧ points.length < 3)) :
    (calculatePreviewMeasurement env points mode).value = JsNum.fin 0 := by
  rcases h with ⟨hm, hl⟩ | ⟨hm, hl⟩
  · subst hm
    simp [calculatePreviewMeasurement, hl]
  · subst hm
    have h3 : ¬ 3 ≤ points.length := by omega
    by_cases h2 : points.length < 2 <;> simp [calculatePreviewMeasurement, h2, h3]

/-- C15 (witness): two points in area mode. -/
theorem preview_below_minimum_is_zero_witness :
    (calculatePreviewMeasurement sampleEnv segment Mode.area).value = JsNum.fin 0 :=
  preview_below_minimum_is_zero sampleEnv segment Mode.area (Or.inr ⟨rfl, by decide⟩)

/-! ## The fallback on a MultiPolygon -/

theorem multiPolygonArea_eq_foldl (env : Env) (polys : List (List (List Position)))
    (acc : JsNum) (h : ∀ poly ∈ polys, poly ≠ []) :
    multiPolygonArea env acc polys
      = some (((polys.filter fun poly => decide (3 ≤ (poly.headD []).length)).map fun poly =>
          (env.geodesicArea (toLatLngs (poly.headD []))).divConst 1000000).foldl
            JsNum.add acc) := by
  induction polys generalizing acc with
  | nil => simp [multiPolygonArea]
  | cons poly rest ih =>
    have hrest : ∀ q ∈ rest, q ≠ [] := fun q hq => h q (List.mem_cons_of_mem _ hq)
    cases poly with
    | nil => exact absurd rfl (h [] (List.mem_cons_self _ _))
    | cons coords holes =>
      by_cases hl : coords.length < 3
      · have hn : ¬ 3 ≤ coords.length := by omega
        simp only [multiPolygonArea, hl, if_true, List.filter_cons, List.headD_cons, hn,
          decide_False, Bool.false_eq_true, if_false]
        exact ih acc hrest
      · have hn : 3 ≤ coords.length := by omega
        simp only [multiPolygonArea, hl, if_false, List.filter_cons, List.headD_cons, hn,
          decide_True, if_true, List.map_cons, List.foldl_cons]
        exact ih _ hrest

/-- C16: for a MultiPolygon each of whose polygons has an exterior ring, the
area that the fallback of `handleAreaMeasured` computes is the sum, over the
polygons whose exterior ring has at least 3 coordinates, of
`geodesicArea(exterior ring) / 1000000`; a polygon whose exterior ring has
fewer than 3 coordinates adds nothing and does not make the computation
throw. -/
theorem multipolygon_fallback_is_sum (env : Env) (polys : List (List (List Position)))
    (h : ∀ poly ∈ polys, poly ≠ []) :
    fallbackTotalArea env (Geometry.MultiPolygon polys) = some (multiPolygonSum env polys) ∧
      ∀ (short : List Position) (holes : List (List Position)), short.length < 3 →
        fallbackTotalArea env (Geometry.MultiPolygon ((short :: holes) :: polys))
          = fallbackTotalArea env (Geometry.MultiPolygon polys) := by
  refine ⟨?_, ?_⟩
  · simp only [fallbackTotalArea, multiPolygonSum]
    exact multiPolygonArea_eq_foldl env polys (JsNum.fin 0) h
  · intro short holes hs
    simp [fallbackTotalArea, multiPolygonArea, hs]

/-- C16 (witness): a closed triangle and a polygon whose ring has two
coordinates. -/
theorem multipolygon_fallback_is_sum_witness :
    fallbackTotalArea sampleEnv
        (Geometry.MultiPolygon [[[(0, 0), (1, 0), (0, 1), (0, 0)]], [[(0, 0), (1, 1)]]])
      = some (multiPolygonSum sampleEnv
          [[[(0, 0), (1, 0), (0, 1), (0, 0)]], [[(0, 0), (1, 1)]]]) :=
  (multipolygon_fallback_is_sum sampleEnv
    [[[(0, 0), (1, 0), (0, 1), (0, 0)]], [[(0, 0), (1, 1)]]] (by simp)).1

/-! ## The change of mode -/

/-- C17 (counterexample): in area mode with two points collected, setting the
mode to `'area'` again changes nothing: the two points are still there. -/
theorem setMode_same_mode_keeps_points :
    twoPointSession.app.measurementMode = Mode.area ∧
      twoPointSession.split.measurementPoints = [⟨0, 0⟩, ⟨0, 1⟩] ∧
      (step sampleEnv twoPointSession (Step.setMode Mode.area)).split.measurementPoints
        = [⟨0, 0⟩, ⟨0, 1⟩] ∧
      (step sampleEnv twoPointSession (Step.setMode Mode.area)).split.measurementPoints ≠ [] := by
  have h : twoPointSession.app.measurementMode = Mode.area ∧
      twoPointSession.split.measurementPoints = [⟨0, 0⟩, ⟨0, 1⟩] := by
    simp [twoPointSession, run, step, initialHost, setMeasurementMode, modeEffect, pointsEffects,
      handleMeasurementModeChange, handlePreviewUpdate, handlePointsUpdate,
      handleMeasurementClick]
  have h2 : step sampleEnv twoPointSession (Step.setMode Mode.area) = twoPointSession := by
    simp [step, setMeasurementMode, h.1]
  rw [h2]
  exact ⟨h.1, h.2, h.2, by rw [h.2]; simp⟩

/-- C17 (amended): for every session state and every mode `m` other than the
current mode, after SetMode(m) the points are empty, the preview value is 0
(in `SplitMapComponent` and in `App`) and the mode is `m`. When `m` is the
current mode, `handleMeasurementModeChange` changes nothing: the mode effect
does not run, and the points and the preview are kept. -/
theorem setMode_clears_session (env : Env) (s : Sys) (m : Mode) :
    (s.app.measurementMode ≠ m →
        (step env s (Step.setMode m)).split.measurementPoints = [] ∧
          (step env s (Step.setMode m)).split.previewMeasurement.value = JsNum.fin 0 ∧
          (step env s (Step.setMode m)).app.previewMeasurement.value = JsNum.fin 0 ∧
          (step env s (Step.setMode m)).app.measurementMode = m) ∧
      (s.app.measurementMode = m → step env s (Step.setMode m) = s) := by
  constructor
  · intro hm
    simp [step, setMeasurementMode, hm, modeEffect, pointsEffects, handleMeasurementModeChange,
      handlePreviewUpdate, handlePointsUpdate]
  · intro hm
    simp [step, setMeasurementMode, hm]

/-- C17 (witness): from area mode with two points to distance mode. -/
theorem setMode_clears_session_witness :
    (step sampleEnv (collecting Mode.area segment) (Step.setMode Mode.distance)
      ).split.measurementPoints = [] ∧
    (step sampleEnv (collecting Mode.area segment) (Step.setMode Mode.distance)
      ).app.measurementMode = Mode.distance :=
  have h := (setMode_clears_session sampleEnv (collecting Mode.area segment) Mode.distance).1
    (by simp [collecting])
  ⟨h.1, h.2.2.2⟩

/-! ## The click listeners -/

/-- C18 (evaluation at the failing input): area mode is entered and left
again, then a viewport is clicked. The arrow that the listener effect
registered in area mode is still on the map, and it appends the clicked point:
the points are not empty although the mode is `'none'`. -/
theorem stale_listener_adds_point_in_mode_none :
    staleListenerRun.sys.app.measurementMode = Mode.none ∧
      staleListenerRun.sys.split.measurementPoints = [⟨1, 2⟩] ∧
      staleListenerRun.sys.split.measurementPoints ≠ [] ∧
      staleListenerRun.before.arrows = [Mode.area] := by
  simp [staleListenerRun, hostRun, hostStep, initialHost, setMeasurementMode, modeEffect,
    pointsEffects, handleMeasurementModeChange, handlePreviewUpdate, handlePointsUpdate,
    listenerEffect, addEventListeners, removeEventListeners, fireClick, Host.listeners,
    handleMeasurementClick, handleLocationClick, calculatePreviewMeasurement, previewUnit]

/-- C19 (evaluation at the failing input): area mode is entered, the
component renders once more, and a viewport is clicked once. Each of the two
renders has registered an arrow and none was removed, so the single click
appends the point twice. -/
theorem click_appends_point_twice :
    repeatedListenerRun.sys.app.measurementMode = Mode.area ∧
      repeatedListenerRun.sys.split.measurementPoints = [⟨1, 2⟩, ⟨1, 2⟩] ∧
      repeatedListenerRun.sys.app.measurements.points = 2 := by
  simp [repeatedListenerRun, hostRun, hostStep, initialHost, setMeasurementMode, modeEffect,
    pointsEffects, handleMeasurementModeChange, handlePreviewUpdate, handlePointsUpdate,
    listenerEffect, addEventListeners, removeEventListeners, fireClick, Host.listeners,
    handleMeasurementClick, handleLocationClick, calculatePreviewMeasurement, previewUnit]

/-- Each of the two click handlers looks at the mode that its own closure
holds: `handleLocationClick` calls `onLocationChange`, with the `lat` and `lng`
of the click, exactly when that mode is `'none'`, and `handleMeasurementClick`
appends the clicked point exactly when that mode is not `'none'`. After the
listener effect has run in a mode other than `'none'`, a click on either
viewport calls `onLocationChange` not at all. -/
theorem handlers_follow_closure_mode (env : Env) (mode : Mode) (latlng : LatLng) (s : SplitState) (h : Host)
    (v : Viewport) :
    (handleLocationClick mode latlng = [{ lat := latlng.lat, lng := latlng.lng }] ↔
        mode = Mode.none) ∧
      (handleLocationClick mode latlng = [] ↔ mode ≠ Mode.none) ∧
      ((handleMeasurementClick mode latlng s).measurementPoints
          = s.measurementPoints ++ [latlng] ↔ mode ≠ Mode.none) ∧
      (handleMeasurementClick mode latlng s = s ↔ mode = Mode.none) ∧
      (h.sys.app.measurementMode ≠ Mode.none →
        (fireClick env v latlng (listenerEffect h)).relocations = h.relocations) := by
  refine ⟨?_, ?_, ?_, ?_, ?_⟩
  · by_cases hm : mode = Mode.none <;> simp [handleLocationClick, hm]
  · by_cases hm : mode = Mode.none <;> simp [handleLocationClick, hm]
  · by_cases hm : mode = Mode.none <;> simp [handleMeasurementClick, hm]
  · by_cases hm : mode = Mode.none
    · simp [handleMeasurementClick, hm]
    · simp only [handleMeasurementClick, hm, if_false, iff_false]
      intro he
      have hl := congrArg (fun x => x.measurementPoints.length) he
      simp at hl
  · intro hm
    unfold fireClick
    cases v <;>
      simp [listenerEffect, Host.listeners, addEventListeners, removeEventListeners, hm] <;>
      split <;> simp

/-- C20 (evaluation at the failing input): area mode is entered and left
again, so that the mode is `'none'` with no points and no relocation made;
then a viewport is clicked once. That one click is routed to both behaviours:
the `handleLocationClick` of the current render calls `onLocationChange` with
the clicked point, and the arrow left on the map from area mode appends the
same point to the measurement points. -/
theorem click_in_mode_none_relocates_and_appends :
    enteredAndLeft.sys.app.measurementMode = Mode.none ∧
      enteredAndLeft.sys.split.measurementPoints = [] ∧
      enteredAndLeft.relocations = [] ∧
      (hostStep sampleEnv enteredAndLeft (HostStep.click Viewport.before ⟨1, 2⟩)).relocations
        = [⟨1, 2⟩] ∧
      (hostStep sampleEnv enteredAndLeft (HostStep.click Viewport.before ⟨1, 2⟩)
        ).sys.split.measurementPoints = [⟨1, 2⟩] ∧
      (hostStep sampleEnv enteredAndLeft (HostStep.click Viewport.before ⟨1, 2⟩)
        ).sys.app.measurementMode = Mode.none := by
  simp [enteredAndLeft, hostRun, hostStep, initialHost, setMeasurementMode, modeEffect,
    pointsEffects, handleMeasurementModeChange, handlePreviewUpdate, handlePointsUpdate,
    listenerEffect, addEventListeners, removeEventListeners, fireClick, Host.listeners,
    handleMeasurementClick, handleLocationClick, calculatePreviewMeasurement, previewUnit]

/-! ## Clear -/

/-- C21 (counterexample): in the state in which the mode is `'none'` and a
point is present (the state that a click reaches after area mode was entered
and left), the clear command leaves the point where it is: the state after
Clear is not the one without points. -/
theorem clear_in_mode_none_keeps_points :
    staleListenerRun.sys.app.measurementMode = Mode.none ∧
      (step sampleEnv staleListenerRun.sys Step.clear).split.measurementPoints = [⟨1, 2⟩] ∧
      (step sampleEnv staleListenerRun.sys Step.clear).split.measurementPoints ≠ [] ∧
      (step sampleEnv (step sampleEnv staleListenerRun.sys Step.clear) Step.clear
        ).split.measurementPoints ≠ [] := by
  simp [staleListenerRun, hostRun, hostStep, initialHost, setMeasurementMode, modeEffect,
    pointsEffects, handleMeasurementModeChange, handlePreviewUpdate, handlePointsUpdate,
    listenerEffect, addEventListeners, removeEventListeners, fireClick, Host.listeners,
    handleMeasurementClick, handleLocationClick, calculatePreviewMeasurement, previewUnit,
    step, clearMeasurements, handleClearMeasurements, previewEffect]

/-- C21 (amended): for every application state, Clear twice in a row gives
the same state as Clear once. When the mode was not `'none'` before the
Clear, or the points were empty and the preview was zero already, that state
has mode `'none'`, no points, the preview `value 0, unit ''` and the
measurements `area 0, distance 0, points 0`. -/
theorem clear_is_idempotent (env : Env) (s : Sys) :
    step env (step env s Step.clear) Step.clear = step env s Step.clear ∧
      ((s.app.measurementMode ≠ Mode.none ∨
          (s.split.measurementPoints = [] ∧
            s.split.previewMeasurement = { value := JsNum.fin 0, unit := "" })) →
        (step env s Step.clear).app.measurementMode = Mode.none ∧
          (step env s Step.clear).split.measurementPoints = [] ∧
          (step env s Step.clear).split.previewMeasurement
            = { value := JsNum.fin 0, unit := "" } ∧
          (step env s Step.clear).app.previewMeasurement
            = { value := JsNum.fin 0, unit := "" } ∧
          (step env s Step.clear).app.measurements
            = { area := JsNum.fin 0, distance := JsNum.fin 0, points := 0 }) := by
  by_cases hm : s.app.measurementMode = Mode.none
  · constructor
    · simp [step, clearMeasurements, hm, handleClearMeasurements, previewEffect,
        handlePreviewUpdate]
    · rintro (h | ⟨hp, hv⟩)
      · exact absurd hm h
      · simp [step, clearMeasurements, hm, handleClearMeasurements, previewEffect,
          handlePreviewUpdate, hp, hv]
  · constructor
    · simp [step, clearMeasurements, hm, handleClearMeasurements, previewEffect,
        handlePreviewUpdate, modeEffect, pointsEffects, handlePointsUpdate]
    · intro _
      simp [step, clearMeasurements, hm, handleClearMeasurements, modeEffect, pointsEffects,
        handlePreviewUpdate, handlePointsUpdate]

/-- C21 (witness): Clear from area mode with three points. -/
theorem clear_is_idempotent_witness :
    (step sampleEnv (collecting Mode.area triangle) Step.clear).app.measurementMode = Mode.none ∧
      (step sampleEnv (collecting Mode.area triangle) Step.clear).split.measurementPoints = [] :=
  have h := (clear_is_idempotent sampleEnv (collecting Mode.area triangle)).2
    (Or.inl (by simp [collecting]))
  ⟨h.1, h.2.1⟩

/-! ## The settle handlers of MapSync -/

/-- C22: when the `isSyncing` guard of a `MapSync` is set, or the measuring
flag is set, its two settle handlers do nothing, whatever a `setView` would
set off: the state after `onMoveEnd` and after `onOtherMapMoveEnd` is the
state before, so the views, the guard and the shared zoom are unchanged and
the lists of `onZoomChange` and `setView` calls have not grown. -/
theorem settle_handlers_suppressed (fire : Viewport → Coordinator → Option Coordinator)
    (i : Viewport) (s : Coordinator)
    (h : s.isSyncing i = true ∨ s.isMeasuring = true) :
    onMoveEnd fire i s = some s ∧ onOtherMapMoveEnd fire i s = some s := by
  simp [onMoveEnd, onOtherMapMoveEnd, h]

/-- C22 (witness): a measurement is active. -/
theorem settle_handlers_suppressed_witness :
    onMoveEnd noListeners Viewport.before (restingCoordinator true)
        = some (restingCoordinator true) ∧
      onOtherMapMoveEnd noListeners Viewport.before (restingCoordinator true)
        = some (restingCoordinator true) :=
  settle_handlers_suppressed noListeners Viewport.before (restingCoordinator true)
    (Or.inr rfl)

/-- C23: with the guard of a `MapSync` clear and no measurement active, after
its handler for a settle of its own map A the other map B has A's view, A's
view is unchanged, the guard is set, the shared zoom is A's zoom and one
`setView` was issued, on B; symmetrically, after its handler for a settle of
the other map, its own map has the other map's view. -/
theorem settle_copies_view (i : Viewport) (s : Coordinator)
    (hg : s.isSyncing i = false) (hm : s.isMeasuring = false) :
    (∃ s1, onMoveEnd noListeners i s = some s1 ∧
        s1.view (otherViewport i) = s.view i ∧ s1.view i = s.view i ∧
        s1.isSyncing i = true ∧ s1.mapZoom = (s.view i).zoom ∧
        s1.setViews = s.setViews ++ [(otherViewport i, s.view i)]) ∧
      (∃ s2, onOtherMapMoveEnd noListeners i s = some s2 ∧
        s2.view i = s.view (otherViewport i) ∧
        s2.view (otherViewport i) = s.view (otherViewport i) ∧
        s2.isSyncing i = true ∧ s2.mapZoom = (s.view (otherViewport i)).zoom ∧
        s2.setViews = s.setViews ++ [(i, s.view (otherViewport i))]) := by
  cases i <;>
    simp_all [onMoveEnd, onOtherMapMoveEnd, noListeners, Coordinator.isSyncing,
      Coordinator.setSyncing, Coordinator.setView, Coordinator.view, onZoomChange,
      otherViewport]

/-- C23 (witness): a settle of the before map at rest. -/
theorem settle_copies_view_witness :
    ∃ s1, onMoveEnd noListeners Viewport.before (restingCoordinator false) = some s1 ∧
      s1.view Viewport.after = (restingCoordinator false).view Viewport.before ∧
      s1.view Viewport.before = (restingCoordinator false).view Viewport.before ∧
      s1.isSyncing Viewport.before = true ∧
      s1.mapZoom = ((restingCoordinator false).view Viewport.before).zoom ∧
      s1.setViews = (restingCoordinator false).setViews
        ++ [(Viewport.after, (restingCoordinator false).view Viewport.before)] :=
  (settle_copies_view Viewport.before (restingCoordinator false) rfl rfl).1

/-- C24: in the model in which every `setView` raises `'moveend'` on its map
at once, with the two `MapSync` components and their own guards, a settle of
one map ends: the nesting of the events never goes beyond three, and at most
two `setView` calls are issued. When a measurement is active or both guards
are set, nothing changes at all; otherwise both maps hold the view of the map
that settled when the events end, and from rest (both guards clear) exactly
two `setView` calls were issued and both guards are set. -/
theorem settle_cascade_stops (n : Nat) (v : Viewport) (s : Coordinator) :
    ∃ s1, fireMoveEnd (n + 3) v s = some s1 ∧
      s1.setViews.length ≤ s.setViews.length + 2 ∧
      ((s.isMeasuring = true ∨ (s.beforeSyncing = true ∧ s.afterSyncing = true)) → s1 = s) ∧
      ((s.isMeasuring = false ∧ (s.beforeSyncing = false ∨ s.afterSyncing = false)) →
        s1.before = s.view v ∧ s1.after = s.view v) ∧
      ((s.isMeasuring = false ∧ s.beforeSyncing = false ∧ s.afterSyncing = false) →
        s1.setViews.length = s.setViews.length + 2 ∧
          s1.beforeSyncing = true ∧ s1.afterSyncing = true) := by
  obtain ⟨b, a, bs, as, m, z, zc, sv, t⟩ := s
  cases v <;> cases bs <;> cases as <;> cases m <;>
    simp [fireMoveEnd, onMoveEnd, onOtherMapMoveEnd, Coordinator.isSyncing,
      Coordinator.setSyncing, Coordinator.setView, Coordinator.view, onZoomChange,
      otherViewport]

/-- C24 (witness): a settle of the before map at rest. -/
theorem settle_cascade_stops_witness :
    ∃ s1, fireMoveEnd 3 Viewport.before (restingCoordinator false) = some s1 ∧
      s1.before = (restingCoordinator false).before ∧
      s1.after = (restingCoordinator false).before ∧
      s1.setViews.length = 2 := by
  obtain ⟨s1, h1, _, _, h4, h5⟩ := settle_cascade_stops 0 Viewport.before
    (restingCoordinator false)
  exact ⟨s1, h1, (h4 ⟨rfl, Or.inl rfl⟩).1, (h4 ⟨rfl, Or.inl rfl⟩).2, (h5 ⟨rfl, rfl, rfl⟩).1⟩

/-- C25 (evaluation at the failing input): distance mode is entered, two
clicks are made and a double-click finishes the measurement. The mode is
still `'distance'`, but `completeMeasurement` has cleared `isMeasuringRef`;
with that flag a settle of the before map is not suppressed: `onMoveEnd`
issues a `setView` and the after map takes the view of the before map. -/
theorem measuring_flag_cleared_in_measurement_mode :
    finishedByDoubleClick.sys.app.measurementMode = Mode.distance ∧
      finishedByDoubleClick.sys.split.isMeasuringRef = false ∧
      (onMoveEnd noListeners Viewport.before
          (restingCoordinator finishedByDoubleClick.sys.split.isMeasuringRef)).map
        (fun s => (s.after, s.setViews))
        = some ((restingCoordinator false).before,
            [(Viewport.after, (restingCoordinator false).before)]) := by
  have h : finishedByDoubleClick.sys.app.measurementMode = Mode.distance ∧
      finishedByDoubleClick.sys.split.isMeasuringRef = false := by
    simp [finishedByDoubleClick, hostRun, hostStep, initialHost, setMeasurementMode, modeEffect,
      pointsEffects, handleMeasurementModeChange, handlePreviewUpdate, handlePointsUpdate,
      listenerEffect, addEventListeners, removeEventListeners, fireClick, Host.listeners,
      handleMeasurementClick, handleLocationClick, calculatePreviewMeasurement, previewUnit,
      completeMeasurementIgnored, handleDoubleClick, finalize, runCompleteMeasurement,
      completeMeasurement, dispatch, handleDistanceMeasured_begin, handleMeasurementUpdate,
      sumDistances]
  refine ⟨h.1, h.2, ?_⟩
  rw [h.2]
  simp [onMoveEnd, noListeners, restingCoordinator, Coordinator.isSyncing,
    Coordinator.setSyncing, Coordinator.setView, Coordinator.view, onZoomChange, otherViewport]

/-! ## The overlay -/

/-- C26 (evaluation at the failing input): area mode is entered, three points
are added and a double-click finishes the measurement. The points are empty
afterwards, but the redraw returns before `clearLayers()` because there are no
points, and the mode has not changed, so nothing else clears the layer groups:
both still hold the polygon of the finished measurement. -/
theorem finished_shape_stays_displayed :
    finishedOverlay.sys.split.measurementPoints = [] ∧
      finishedOverlay.beforeLayers = [Shape.polygon [⟨0, 0⟩, ⟨0, 1⟩, ⟨1, 0⟩, ⟨0, 0⟩]] ∧
      finishedOverlay.afterLayers = [Shape.polygon [⟨0, 0⟩, ⟨0, 1⟩, ⟨1, 0⟩, ⟨0, 0⟩]] ∧
      drawOnMap true [Shape.polygon [⟨0, 0⟩, ⟨0, 1⟩, ⟨1, 0⟩, ⟨0, 0⟩]] [] Mode.area
        = [Shape.polygon [⟨0, 0⟩, ⟨0, 1⟩, ⟨1, 0⟩, ⟨0, 0⟩]] := by
  simp [finishedOverlay, overlayRun, overlayStep, initialOverlay, initialHost, step,
    setMeasurementMode, modeEffect, pointsEffects, handleMeasurementModeChange,
    handlePreviewUpdate, handlePointsUpdate, handleMeasurementClick, clearMeasurementLayers,
    drawMeasurementPreview, drawOnMap, completeMeasurementIgnored, handleDoubleClick, finalize,
    runCompleteMeasurement, completeMeasurement, dispatch, handleAreaMeasured_begin,
    handleMeasurementUpdate, calculatePreviewMeasurement, previewUnit]

/-- C27 (counterexample): in area mode a single point is drawn as a marker,
not as a dashed polyline. -/
theorem single_point_in_area_mode_is_marker :
    drawOnMap true [] [⟨0, 0⟩] Mode.area = [Shape.marker ⟨0, 0⟩] ∧
      drawOnMap true [] [⟨0, 0⟩] Mode.area ≠ [Shape.polyline [⟨0, 0⟩] true] := by
  simp [drawOnMap]

/-- C27 (amended): for a non-empty point sequence and mode area or distance,
`drawOnMap` leaves exactly one shape in the layer group, whatever it held
before: one point gives a marker at that point, in either mode; at least 2
points in distance mode give a polyline, not dashed, through exactly those
points in order; at least 3 points in area mode give a polygon whose vertex
list is the points followed by a copy of the first; exactly 2 points in area
mode give a dashed polyline through the points. -/
theorem drawOnMap_leaves_one_shape (layers : List Shape) (points : List LatLng) (mode : Mode)
    (hne : points ≠ []) (hmode : mode = Mode.area ∨ mode = Mode.distance) :
    (∃ shape, drawOnMap true layers points mode = [shape]) ∧
      (∀ p, points = [p] → drawOnMap true layers points mode = [Shape.marker p]) ∧
      (mode = Mode.distance → 2 ≤ points.length →
        drawOnMap true layers points mode = [Shape.polyline points false]) ∧
      (mode = Mode.area → 3 ≤ points.length →
        drawOnMap true layers points mode
          = [Shape.polygon (points ++ [points.head hne])]) ∧
      (mode = Mode.area → points.length = 2 →
        drawOnMap true layers points mode = [Shape.polyline points true]) := by
  cases points with
  | nil => exact absurd rfl hne
  | cons p rest =>
    cases rest with
    | nil =>
      rcases hmode with hm | hm <;> subst hm <;> simp [drawOnMap]
    | cons q rest2 =>
      rcases hmode with hm | hm <;> subst hm
      · by_cases h3 : 3 ≤ (p :: q :: rest2).length
        · have h1 : 1 ≤ rest2.length := by
            simp at h3
            omega
          have h0 : rest2 ≠ [] := by
            intro h
            simp [h] at h1
          simp [drawOnMap, h1, h0]
        · have : rest2 = [] := by
            cases rest2 with
            | nil => rfl
            | cons _ _ => simp at h3
          simp [drawOnMap, this]
      · simp [drawOnMap]

/-- C27 (witness): two points in area mode. -/
theorem drawOnMap_leaves_one_shape_witness :
    drawOnMap true [Shape.marker ⟨0, 0⟩] segment Mode.area = [Shape.polyline segment true] :=
  (drawOnMap_leaves_one_shape [Shape.marker ⟨0, 0⟩] segment Mode.area (by simp [segment])
    (Or.inl rfl)).2.2.2.2 rfl rfl

/-! ## The location history -/

/-- C28: for every stored history `h` and every location `loc`, when the
storage takes the write, the history stored by `addLocationToHistory(loc)` is
the first 15 elements of `loc` followed by the elements of `h` whose
`display_name` differs from that of `loc`, in their order (with nothing stored
before, it is `loc` alone); so `loc` is first, no entry after it has its
`display_name`, and there are at most 15 entries. -/
theorem addLocationToHistory_stores (h : List Location) (loc : Location) :
    addLocationToHistory true loc (some h)
        = some ((loc :: h.filter fun item => decide (item.display_name ≠ loc.display_name)).take
            15) ∧
      addLocationToHistory true loc none = some [loc] ∧
      ∃ rest, addLocationToHistory true loc (some h) = some (loc :: rest) ∧
        (∀ item ∈ rest, item.display_name ≠ loc.display_name) ∧
        (loc :: rest).length ≤ 15 := by
  have hf : (fun item : Location => item.display_name != loc.display_name)
      = fun item => decide (item.display_name ≠ loc.display_name) := by
    funext item
    by_cases hd : item.display_name = loc.display_name <;> simp [hd]
  refine ⟨?_, ?_, ?_⟩
  · simp only [addLocationToHistory, getLocationHistory, MAX_HISTORY_ITEMS, hf, if_true]
  · simp [addLocationToHistory, getLocationHistory, MAX_HISTORY_ITEMS]
  · refine ⟨(h.filter fun item => item.display_name != loc.display_name).take 14, ?_, ?_, ?_⟩
    · simp [addLocationToHistory, getLocationHistory, MAX_HISTORY_ITEMS]
    · intro item hi
      have hf := List.mem_of_mem_take hi
      simpa using (List.mem_filter.mp hf).2
    · simp

/-- C28 (evaluation): a location already in the history moves to the
front. -/
theorem addLocationToHistory_stores_witness :
    addLocationToHistory true (place "Paris") (some [place "Lyon", place "Paris"])
      = some [place "Paris", place "Lyon"] := by
  rw [(addLocationToHistory_stores [place "Lyon", place "Paris"] (place "Paris")).1]
  simp [place]

/-! ## The final value and the fallback distance -/

/-- C29: for a point sequence that meets the minimum of its mode, the value
that `completeMeasurement` reports through `onMeasurementUpdate` is the value
that `calculatePreviewMeasurement` computes for the same points and mode,
under the key of the mode, and the units are the same: km² for area, km for
distance. -/
theorem final_value_equals_preview (env : Env) (s : SplitState) (mode : Mode)
    (h : (mode = Mode.area ∧ 3 ≤ s.measurementPoints.length) ∨
      (mode = Mode.distance ∧ 2 ≤ s.measurementPoints.length)) :
    (∀ key value, Call.onMeasurementUpdate key value ∈ (completeMeasurement env mode s).2 ↔
        (key = (if mode = Mode.area then MeasurementKey.area else MeasurementKey.distance) ∧
          value = (calculatePreviewMeasurement env s.measurementPoints mode).value)) ∧
      completeMeasurementUnit mode
        = (calculatePreviewMeasurement env s.measurementPoints mode).unit ∧
      completeMeasurementUnit mode = (if mode = Mode.area then "km²" else "km") := by
  rcases h with ⟨hm, hl⟩ | ⟨hm, hl⟩
  · subst hm
    have h2 : ¬ s.measurementPoints.length < 2 := by omega
    refine ⟨?_, ?_, ?_⟩
    · intro key value
      rw [completeMeasurement_area_calls env s hl]
      simp [calculatePreviewMeasurement, h2, hl]
    · simp [completeMeasurementUnit, calculatePreviewMeasurement, h2, hl, previewUnit]
    · simp [completeMeasurementUnit]
  · subst hm
    have h2 : ¬ s.measurementPoints.length < 2 := by omega
    refine ⟨?_, ?_, ?_⟩
    · intro key value
      rw [completeMeasurement_distance_calls env s hl]
      simp [calculatePreviewMeasurement, h2]
    · simp [completeMeasurementUnit, calculatePreviewMeasurement, h2, previewUnit]
    · simp [completeMeasurementUnit]

/-- C29 (witness): three points in area mode. -/
theorem final_value_equals_preview_witness :
    Call.onMeasurementUpdate MeasurementKey.area
        (calculatePreviewMeasurement sampleEnv triangle Mode.area).value ∈
      (completeMeasurement sampleEnv Mode.area (collecting Mode.area triangle).split).2 :=
  ((final_value_equals_preview sampleEnv (collecting Mode.area triangle).split Mode.area
    (Or.inl ⟨rfl, by decide⟩)).1 _ _).2 ⟨rfl, rfl⟩

theorem sumDistancesBack_eq_sumDistances (env : Env)
    (hsym : ∀ a b, env.distanceTo a b = env.distanceTo b a) (acc : JsNum) (l : List LatLng) :
    sumDistancesBack env acc l = sumDistances env acc l := by
  induction l generalizing acc with
  | nil => simp [sumDistancesBack, sumDistances]
  | cons p rest ih =>
    cases rest with
    | nil => simp [sumDistancesBack, sumDistances]
    | cons q r =>
      simp only [sumDistancesBack, sumDistances]
      rw [hsym q p]
      exact ih _

/-- C30: for N >= 2 points, reading the coordinates of the LineString that
`completeMeasurement` builds back as points, the way the fallback does, gives
the original points in their order; so, when the pairwise distance is
symmetric, the distance that the fallback of `handleDistanceMeasured` computes
for that LineString is the local distance that `completeMeasurement` reports
for the points, in metres and in kilometres. -/
theorem line_decodes_to_points (env : Env) (s : SplitState)
    (h : 2 ≤ s.measurementPoints.length)
    (hsym : ∀ a b, env.distanceTo a b = env.distanceTo b a) :
    Call.onDistanceMeasured (Geometry.LineString (toCoordinates s.measurementPoints))
        ∈ (completeMeasurement env Mode.distance s).2 ∧
      toLatLngs (toCoordinates s.measurementPoints) = s.measurementPoints ∧
      fallbackTotalDistance env (Geometry.LineString (toCoordinates s.measurementPoints))
        = some (sumDistances env (JsNum.fin 0) s.measurementPoints) ∧
      Call.onMeasurementUpdate MeasurementKey.distance
          ((sumDistances env (JsNum.fin 0) s.measurementPoints).divConst 1000)
        ∈ (completeMeasurement env Mode.distance s).2 ∧
      fallbackDistance env (Geometry.LineString (toCoordinates s.measurementPoints))
        = acceptPositive ((sumDistances env (JsNum.fin 0) s.measurementPoints).divConst 1000)
      := by
  have hc : ¬ (toCoordinates s.measurementPoints).length < 2 := by
    simp [toCoordinates]
    omega
  have ht : fallbackTotalDistance env (Geometry.LineString (toCoordinates s.measurementPoints))
      = some (sumDistances env (JsNum.fin 0) s.measurementPoints) := by
    simp only [fallbackTotalDistance, hc, if_false]
    rw [toLatLngs_toCoordinates, sumDistancesBack_eq_sumDistances env hsym]
  refine ⟨?_, toLatLngs_toCoordinates _, ht, ?_, ?_⟩
  · rw [completeMeasurement_distance_calls env s h]
    simp
  · rw [completeMeasurement_distance_calls env s h]
    simp
  · simp [fallbackDistance, ht]

/-- C30 (witness): two points, every distance being one kilometre. -/
theorem line_decodes_to_points_witness :
    toLatLngs (toCoordinates segment) = segment ∧
      fallbackTotalDistance sampleEnv (Geometry.LineString (toCoordinates segment))
        = some (sumDistances sampleEnv (JsNum.fin 0) segment) :=
  have h := line_decodes_to_points sampleEnv (collecting Mode.distance segment).split
    (by decide) (fun _ _ => rfl)
  ⟨h.2.1, h.2.2.1⟩

end SatelliteGEE
